import Mathlib

/-!
Verification development for the Univalle activity-scraping engine
(`scraper/utils/helpers.py` and `scraper/services/univalle_scraper.py`).

The Python code is shallowly embedded: strings are `String`, Python floats
arising from parsing decimal digit strings are modelled as exact rationals
(`Rat`), mutable loops become folds, and Python dicts with string values
become association lists.  Character-class tests (`isdigit`, `upper`,
whitespace) are modelled with Lean's ASCII character predicates; the inputs
relevant here are ASCII.  HTML-regex table segmentation
(`extraer_tablas` / `extraer_filas` / `extraer_celdas` /
`extraer_texto_de_celda` / `_buscar_tabla_anidada`) is abstracted by a
`Tabla` record carrying the flattened table text, the per-row extracted cell
texts, and the rows of the first nested table; every function downstream of
that layer is translated statement by statement from the source.
-/

/-- Python substring test `pat in s` on char lists: `pat` occurs contiguously. -/
def hayInfijo (pat : List Char) : List Char → Bool
  | [] => pat.isEmpty
  | c :: resto => pat.isPrefixOf (c :: resto) || hayInfijo pat resto

/-- Python `pat in s` for strings. -/
def strContains (s pat : String) : Bool := hayInfijo pat.toList s.toList

/-- Python `str.upper()` (ASCII letters; accented input letters are left as is,
which only matters for non-ASCII lowercase input, not exercised here). -/
def pyUpper (s : String) : String := String.mk (s.toList.map Char.toUpper)

/-- Python `str.lower()` (ASCII letters). -/
def pyLower (s : String) : String := String.mk (s.toList.map Char.toLower)

/-- Whitespace removal at both ends of a character list. -/
def recortaWs (l : List Char) : List Char :=
  ((l.dropWhile Char.isWhitespace).reverse.dropWhile Char.isWhitespace).reverse

/-- Python `str.strip()` (ASCII whitespace). -/
def pyStrip (s : String) : String := String.mk (recortaWs s.toList)

/-- Python `str.isdigit()`: non-empty and all digits. -/
def pyEsDigitos (s : String) : Bool := !s.toList.isEmpty && s.toList.all Char.isDigit

/-- Python `str.isalpha()`: non-empty and all (ASCII) letters. -/
def pyEsAlpha (s : String) : Bool := !s.toList.isEmpty && s.toList.all Char.isAlpha

/-- Python `str.endswith('%')`. -/
def terminaEnPct (s : String) : Bool := s.toList.getLast? == some '%'

/-- Concatenation of a string list with a separator (`sep.join(l)`). -/
def uneCon (sep : String) : List String → String
  | [] => ""
  | [x] => x
  | x :: resto => x ++ sep ++ uneCon sep resto

/-- Python truthiness for strings followed by `or`: `x or y`. -/
def pyOr (x y : String) : String := if x = "" then y else x

/-- Numeric value of a digit list read in base 10 (value of `int(s)` on digits). -/
def natDeDigitos (cs : List Char) : Nat :=
  cs.foldl (fun acc c => 10 * acc + (c.toNat - 48)) 0

/-- Python `float(s)` restricted to strings of digits and dots (the only shapes
reaching it here): defined exactly when there is at least one digit, at most
one dot, and nothing else; the result is the integer-part and fractional-part
digit lists. -/
def pyFloatPartes (s : String) : Option (List Char × List Char) :=
  let cs := s.toList
  if cs.all (fun c => c.isDigit || c == '.')
      && cs.countP (fun c => c == '.') ≤ 1
      && cs.any Char.isDigit then
    some (cs.takeWhile (fun c => !(c == '.')), (cs.dropWhile (fun c => !(c == '.'))).drop 1)
  else none

/-- Exact value of a parsed decimal as a rational. -/
def valorDec (ent frac : List Char) : Rat :=
  (natDeDigitos ent : Rat) + (natDeDigitos frac : Rat) / (10 : Rat) ^ frac.length

/-- Python `float(s)` on digit/dot strings, as an exact rational. -/
def pyFloatDec (s : String) : Option Rat :=
  (pyFloatPartes s).map (fun p => valorDec p.1 p.2)

/-- Python `str(f)` for a float parsed from the decimal with integer digits
`ent` and fractional digits `frac`: leading integer zeros and trailing
fractional zeros disappear and at least one digit stays on each side
(`str(float("064.500")) = "64.5"`, `str(float("64")) = "64.0"`). -/
def floatStrDe (ent frac : List Char) : String :=
  let fracSin := (frac.reverse.dropWhile (fun c => c == '0')).reverse
  Nat.repr (natDeDigitos ent) ++ "." ++ (if fracSin.isEmpty then "0" else String.mk fracSin)

/-- The cleaning step of `parsear_horas`: `re.sub(r'[^\d.,]', '', s)` followed by
`.replace(',', '.')`. -/
def limpiarHorasStr (s : String) : String :=
  String.mk ((s.toList.filter (fun c => c.isDigit || c == '.' || c == ',')).map
    (fun c => if c == ',' then '.' else c))

/-- Removal of every character but digits and dots:
`re.sub(r'[^\d.]', '', s)`. -/
def soloDigitosPunto (s : String) : String :=
  String.mk (s.toList.filter (fun c => c.isDigit || c == '.'))

/-- Removal of ASCII letters: `re.sub(r'[A-Za-z]', '', s)`. -/
def quitaLetras (s : String) : String :=
  String.mk (s.toList.filter (fun c => !c.isAlpha))

/-- Full match of `^\d+\.?\d*%?$`. -/
def matchNumPct (s : String) : Bool :=
  let cs := s.toList
  let d1 := cs.takeWhile Char.isDigit
  let r1 := cs.dropWhile Char.isDigit
  if d1.isEmpty then false
  else
    let r2 := match r1 with
      | '.' :: t => t
      | _ => r1
    let r3 := r2.dropWhile Char.isDigit
    r3 == [] || r3 == ['%']

/-- Full match of `^\d+\.?\d*$`. -/
def matchNum (s : String) : Bool :=
  let cs := s.toList
  let d1 := cs.takeWhile Char.isDigit
  let r1 := cs.dropWhile Char.isDigit
  if d1.isEmpty then false
  else
    let r2 := match r1 with
      | '.' :: t => t
      | _ => r1
    (r2.dropWhile Char.isDigit) == []

/-- Full match of `^(\d+)\.(\d+)$`. -/
def matchDecimal (s : String) : Bool :=
  let cs := s.toList
  let d1 := cs.takeWhile Char.isDigit
  match cs.dropWhile Char.isDigit with
  | '.' :: resto => !d1.isEmpty && !resto.isEmpty && resto.all Char.isDigit
  | _ => false

/-- Full match of `^\d+$`. -/
def matchDigitos (s : String) : Bool :=
  !s.toList.isEmpty && s.toList.all Char.isDigit

/-- Full match of `^[7-9]\d{2,}$`. -/
def match79 (s : String) : Bool :=
  match s.toList with
  | [] => false
  | c :: resto => ('7' ≤ c && c ≤ '9') && decide (2 ≤ resto.length) && resto.all Char.isDigit

/-- Full match of `^[1-5]\d{3,}$`. -/
def match15 (s : String) : Bool :=
  match s.toList with
  | [] => false
  | c :: resto => ('1' ≤ c && c ≤ '5') && decide (3 ≤ resto.length) && resto.all Char.isDigit

/-- Full match of `^[A-Z0-9]{5,8}C?$` (upper-case letters and digits). -/
def matchCodigo (s : String) : Bool :=
  let esAZ09 := fun c : Char => c.isUpper || c.isDigit
  let cs := s.toList
  (cs.all esAZ09 && decide (5 ≤ cs.length) && decide (cs.length ≤ 8)) ||
    (match cs.getLast? with
     | some 'C' =>
        cs.dropLast.all esAZ09 && decide (5 ≤ cs.dropLast.length)
          && decide (cs.dropLast.length ≤ 8)
     | _ => false)

/-- One application of `re.sub(r'\s*\d+%$', '', s)`: drop a trailing
percent-number suffix (with any whitespace before it) when present. -/
def quitaPctFinal (s : String) : String :=
  match s.toList.reverse with
  | '%' :: resto =>
    let digitos := resto.takeWhile Char.isDigit
    if digitos.isEmpty then s
    else String.mk (((resto.dropWhile Char.isDigit).dropWhile Char.isWhitespace).reverse)
  | _ => s

/-- Collapse of whitespace runs to single spaces, with a flag recording
whether the previous character was whitespace: `re.sub(r'\s+', ' ', s)`. -/
def colapsaWs (previoWs : Bool) : List Char → List Char
  | [] => []
  | c :: resto =>
    if c.isWhitespace then
      if previoWs then colapsaWs true resto
      else ' ' :: colapsaWs true resto
    else c :: colapsaWs false resto

/-- String version of `colapsaWs`. -/
def colapsaWsStr (s : String) : String := String.mk (colapsaWs false s.toList)

/-- Replacement of every occurrence of `pat` by `rep` (Python `str.replace`),
with the list length as structural fuel. -/
def reemplazaAux (pat rep : List Char) : Nat → List Char → List Char
  | 0, l => l
  | _ + 1, [] => []
  | fuel + 1, c :: resto =>
    if pat.isPrefixOf (c :: resto) && !pat.isEmpty then
      rep ++ reemplazaAux pat rep fuel ((c :: resto).drop pat.length)
    else c :: reemplazaAux pat rep fuel resto

/-- Python `s.replace(pat, rep)`. -/
def reemplaza (s pat rep : String) : String :=
  String.mk (reemplazaAux pat.toList rep.toList s.toList.length s.toList)

/-- Word accumulation for `palabras`: `actual` holds the current word
reversed. -/
def palabrasAux : List Char → List Char → List String
  | actual, [] => if actual.isEmpty then [] else [String.mk actual.reverse]
  | actual, c :: resto =>
    if c.isWhitespace then
      if actual.isEmpty then palabrasAux [] resto
      else String.mk actual.reverse :: palabrasAux [] resto
    else palabrasAux (c :: actual) resto

/-- Python `s.split()`: words separated by whitespace runs. -/
def palabras (s : String) : List String := palabrasAux [] s.toList

/-- Cell access with the bound checks the source performs
(`0 <= i < len(l)`), `-1` being the "not found" sentinel. -/
def celdaEn (l : List String) (i : Int) : String :=
  if 0 ≤ i ∧ i.toNat < l.length then l.getD i.toNat "" else ""

/-- Index of the first element satisfying `p`, or `-1`. -/
def primerIdx (p : String → Bool) (l : List String) : Int :=
  match l.findIdx? p with
  | some j => (j : Int)
  | none => -1

/-- Python dicts with string keys and values, as insertion-ordered
association lists with unique keys. -/
abbrev AListStr := List (String × String)

/-- Python `d[k] = v`: replace in place or append. -/
def dictPon : AListStr → String → String → AListStr
  | [], k, v => [(k, v)]
  | (k', v') :: resto, k, v =>
    if k' = k then (k, v) :: resto else (k', v') :: dictPon resto k v

/-- Python `d.get(k)`. -/
def dictBusca : AListStr → String → Option String
  | [], _ => none
  | (k', v') :: resto, k => if k' = k then some v' else dictBusca resto k

/-- Python `d.get(k, dflt)`. -/
def dictBuscaD (d : AListStr) (k dflt : String) : String :=
  (dictBusca d k).getD dflt

/-- Python `k in d and d[k]` (present with a truthy value). -/
def dictTieneValor (d : AListStr) (k : String) : Bool :=
  match dictBusca d k with
  | some v => v ≠ ""
  | none => false

/-! ## `scraper/utils/helpers.py` -/

/-- `parsear_horas` (helpers.py 139-162): strip all but digits, dot and comma,
normalize comma to dot, parse as float; empty input or a parse failure gives
`0.0` instead of an exception. -/
def parsear_horas (s : String) : Rat :=
  if s = "" then 0
  else (pyFloatDec (limpiarHorasStr s)).getD 0

/-- Removal of an anchored pattern `LIT`, uppercase literal. -/
def quitaLit (lit : String) (cs : List Char) : Option (List Char) :=
  if lit.toList.isPrefixOf cs then some (cs.drop lit.length) else none

/-- Removal of `\s+` (at least one whitespace character). -/
def quitaWs1 (cs : List Char) : Option (List Char) :=
  match cs with
  | c :: resto => if c.isWhitespace then some (resto.dropWhile Char.isWhitespace) else none
  | [] => none

/-- Removal of `\s*`. -/
def quitaWs0 (cs : List Char) : List Char := cs.dropWhile Char.isWhitespace

/-- Anchored `re.sub(pat, '', s)` step: keep the input when the pattern does
not match at the start. -/
def aplicaPrefijo (f : List Char → Option (List Char)) (cs : List Char) : List Char :=
  (f cs).getD cs

/-- `^DEPARTAMENTO\s+DE\s+` and the analogous two-word prefixes. -/
def patPalabraDe (w : String) (cs : List Char) : Option (List Char) :=
  quitaLit w cs >>= quitaWs1 >>= quitaLit "DE" >>= quitaWs1

/-- `^DEPARTAMENTO\s+` and the analogous one-word prefixes. -/
def patPalabra (w : String) (cs : List Char) : Option (List Char) :=
  quitaLit w cs >>= quitaWs1

/-- `^DEPTO\.\s*DE\s+`. -/
def patDeptoPuntoDe (cs : List Char) : Option (List Char) :=
  (quitaLit "DEPTO." cs).map quitaWs0 >>= quitaLit "DE" >>= quitaWs1

/-- `^DEPTO\.\s*`. -/
def patDeptoPunto (cs : List Char) : Option (List Char) :=
  (quitaLit "DEPTO." cs).map quitaWs0

/-- `limpiar_departamento` (helpers.py 76-116): uppercase and strip, then
remove the nine leading DEPARTAMENTO/DEPTO/ESCUELA/FACULTAD prefix patterns in
order, then collapse internal whitespace. -/
def limpiar_departamento (departamento : String) : String :=
  if departamento = "" then ""
  else
    let d0 := (pyUpper (pyStrip departamento)).toList
    let d1 := aplicaPrefijo (patPalabraDe "DEPARTAMENTO") d0
    let d2 := aplicaPrefijo (patPalabra "DEPARTAMENTO") d1
    let d3 := aplicaPrefijo patDeptoPuntoDe d2
    let d4 := aplicaPrefijo (patPalabraDe "DEPTO") d3
    let d5 := aplicaPrefijo patDeptoPunto d4
    let d6 := aplicaPrefijo (patPalabra "DEPTO") d5
    let d7 := aplicaPrefijo (patPalabraDe "ESCUELA") d6
    let d8 := aplicaPrefijo (patPalabra "ESCUELA") d7
    let d9 := aplicaPrefijo (patPalabraDe "FACULTAD") d8
    pyStrip (uneCon " " (palabras (String.mk d9)))

/-- Modelled from the spec: `limpiar_escuela` is imported by
`univalle_scraper.py` but absent from `scraper/utils/helpers.py`; §4.6 of the
spec has both separately-labeled school and department fields "normalized by
stripping leading DEPARTAMENTO DE/DEPTO./ESCUELA DE/FACULTAD DE prefixes", so
the school normalizer is modelled with the same prefix stripping as
`limpiar_departamento`. -/
def limpiar_escuela (escuela : String) : String :=
  limpiar_departamento escuela

/-- `formatear_nombre_completo` (helpers.py 119-136). -/
def formatear_nombre_completo (nombre apellido1 apellido2 : String) : String :=
  let partes := [nombre, apellido1, apellido2].filter (fun p => p ≠ "" && pyStrip p ≠ "")
  if partes.isEmpty then "No disponible" else uneCon " " partes

/-- `generar_id_actividad` (helpers.py 182-197): lowercase
`codigo|nombre|grupo|tipo` built from the uppercase dict keys. -/
def generar_id_actividad (actividad : AListStr) : String :=
  let codigo := pyStrip (dictBuscaD actividad "CODIGO" "")
  let nombre := pyStrip (dictBuscaD actividad "NOMBRE DE ASIGNATURA" "")
  let grupo := pyStrip (dictBuscaD actividad "GRUPO" "")
  let tipo := pyStrip (dictBuscaD actividad "TIPO" "")
  pyLower (codigo ++ "|" ++ nombre ++ "|" ++ grupo ++ "|" ++ tipo)

/-- Loop body of `deduplicar_actividades` with the running `vistos` set. -/
def dedupAux (vistos : List String) : List AListStr → List AListStr
  | [] => []
  | a :: resto =>
    if generar_id_actividad a = "|||" ∨ generar_id_actividad a = "" then
      a :: dedupAux vistos resto
    else if generar_id_actividad a ∈ vistos then dedupAux vistos resto
    else a :: dedupAux (generar_id_actividad a :: vistos) resto

/-- `deduplicar_actividades` (helpers.py 200-229): keep the first record per
id, except that records with the degenerate id `'|||'` (or `''`) are always
kept. -/
def deduplicar_actividades (actividades : List AListStr) : List AListStr :=
  dedupAux [] actividades

/-- Top-level function names defined in `scraper/utils/helpers.py`. -/
def helpersDefinedNames : List String :=
  ["validar_cedula", "limpiar_cedula", "normalizar_texto", "limpiar_departamento",
   "formatear_nombre_completo", "parsear_horas", "validar_periodo_id",
   "generar_id_actividad", "deduplicar_actividades", "sanitizar_valor_hoja",
   "parsear_periodo_label", "extraer_periodo_desde_texto"]

/-- Names `univalle_scraper.py` imports from `scraper.utils.helpers`
(lines 29-40). -/
def univalleScraperHelperImports : List String :=
  ["validar_cedula", "limpiar_cedula", "normalizar_texto", "limpiar_departamento",
   "limpiar_escuela", "parsear_horas", "generar_id_actividad",
   "deduplicar_actividades", "parsear_periodo_label", "formatear_nombre_completo"]

/-- Helper functions invoked by `_construir_actividad_dict`
(univalle_scraper.py 2726-2758). -/
def construirActividadDictUsaHelpers : List String :=
  ["parsear_horas", "limpiar_escuela", "limpiar_departamento"]

/-- Python `from ... import ...` semantics: the module loads only when
every imported name is defined in the source module. -/
def importUnivalleScraperOk : Bool :=
  univalleScraperHelperImports.all (fun n => helpersDefinedNames.contains n)

/-- The imported names that fail to resolve against helpers.py. -/
def importesFaltantes : List String :=
  univalleScraperHelperImports.filter (fun n => !helpersDefinedNames.contains n)

/-! ## Data model (`univalle_scraper.py` dataclasses and table abstraction) -/

/-- `InformacionPersonal` (univalle_scraper.py 60-75). -/
structure InformacionPersonal where
  cedula : String := ""
  nombre : String := ""
  apellido1 : String := ""
  apellido2 : String := ""
  unidad_academica : String := ""
  escuela : String := ""
  departamento : String := ""
  vinculacion : String := ""
  categoria : String := ""
  dedicacion : String := ""
  nivel_alcanzado : String := ""
  cargo : String := ""
  centro_costo : String := ""
deriving DecidableEq, Repr

/-- `ActividadAsignatura` (univalle_scraper.py 78-90); `periodo` is always the
period id the caller passes. -/
structure ActividadAsignatura where
  codigo : String := ""
  nombre_asignatura : String := ""
  grupo : String := ""
  tipo : String := ""
  horas_semestre : String := ""
  cred : String := ""
  porc : String := ""
  frec : String := ""
  inten : String := ""
  periodo : Int := 0
deriving DecidableEq, Repr

/-- `ActividadInvestigacion` (univalle_scraper.py 93-100). -/
structure ActividadInvestigacion where
  codigo : String := ""
  nombre_proyecto : String := ""
  aprobado_por : String := ""
  horas_semestre : String := ""
  periodo : Int := 0
deriving DecidableEq, Repr

/-- Dict-shaped activity rows (tesis, extensión, administrativas, etc.): the
`'PERIODO'` entry (an int in the source) is kept apart from the string map. -/
structure DictActividad where
  periodo : Int := 0
  kv : AListStr := []
deriving DecidableEq, Repr

/-- `DatosDocente` (univalle_scraper.py 103-116). -/
structure DatosDocente where
  periodo : Int
  informacion_personal : InformacionPersonal := {}
  actividades_pregrado : List ActividadAsignatura := []
  actividades_postgrado : List ActividadAsignatura := []
  actividades_tesis : List DictActividad := []
  actividades_investigacion : List ActividadInvestigacion := []
  actividades_extension : List DictActividad := []
  actividades_intelectuales : List DictActividad := []
  actividades_administrativas : List DictActividad := []
  actividades_complementarias : List DictActividad := []
  docente_en_comision : List DictActividad := []
deriving DecidableEq, Repr

/-- One `<table>` fragment after the HTML-regex layer: `texto` is
`extraer_texto_de_celda` of the whole fragment, `filas` holds
`extraer_celdas` of each `extraer_filas` row, and `anidada` holds the rows of
the first nested table found by `_buscar_tabla_anidada` (if any).  Row text
(`extraer_texto_de_celda` of one row) is recovered as the cells joined by
single spaces, matching the whitespace the source HTML puts between cells. -/
structure Tabla where
  texto : String := ""
  filas : List (List String) := []
  anidada : Option (List (List String)) := none
deriving DecidableEq, Repr

/-- Flattened text of one row. -/
def textoFila (f : List String) : String := uneCon " " f

/-- The unified 13-field output record built by `_construir_actividad_dict`
(univalle_scraper.py 2699-2758); `numero_horas` is the parsed float. -/
structure ActivityRecord where
  cedula : String
  nombre_profesor : String
  escuela : String
  departamento : String
  tipo_actividad : String
  categoria : String
  nombre_actividad : String
  numero_horas : Rat
  periodo : String
  actividad : String
  vinculacion : String
  dedicacion : String
  nivel : String
deriving DecidableEq, Repr

/-! ## Track classification (`_es_postgrado`, univalle_scraper.py 46-57 and 2018-2037) -/

/-- `KEYWORDS_POSTGRADO` (univalle_scraper.py 46-51). -/
def KEYWORDS_POSTGRADO : List String :=
  ["MAESTRIA", "MAESTRÍA", "MAGISTER", "MASTER", "MAESTR",
   "DOCTORADO", "DOCTORAL", "PHD", "DOCTOR",
   "ESPECIALIZA", "ESPECIALIZACION", "ESPECIALIZACIÓN",
   "POSTGRADO", "POSGRADO", "POST-GRADO", "POST GRADO"]

/-- `KEYWORDS_PREGRADO` (univalle_scraper.py 53-57). -/
def KEYWORDS_PREGRADO : List String :=
  ["LICENCIATURA", "INGENIERIA", "INGENERÍA",
   "BACHILLERATO", "TECNOLOGIA", "TECNOLOGÍA",
   "PROFESIONAL", "CARRERA", "PREGRADO"]

/-- `any(kw in nombre or kw in tipo for kw in KEYWORDS_POSTGRADO)`
(univalle_scraper.py 2023). -/
def hayKeywordPostgrado (a : ActividadAsignatura) : Bool :=
  KEYWORDS_POSTGRADO.any (fun kw =>
    strContains (pyUpper a.nombre_asignatura) kw || strContains (pyUpper a.tipo) kw)

/-- `any(kw in nombre or kw in tipo for kw in KEYWORDS_PREGRADO)`
(univalle_scraper.py 2026). -/
def hayKeywordPregrado (a : ActividadAsignatura) : Bool :=
  KEYWORDS_PREGRADO.any (fun kw =>
    strContains (pyUpper a.nombre_asignatura) kw || strContains (pyUpper a.tipo) kw)

/-- `_es_postgrado` (univalle_scraper.py 2018-2037). -/
def es_postgrado (a : ActividadAsignatura) : Bool :=
  if hayKeywordPostgrado a then true
  else if hayKeywordPregrado a then false
  else
    let codigoLimpio := quitaLetras a.codigo
    if codigoLimpio ≠ "" ∧ matchDigitos codigoLimpio then
      if match79 codigoLimpio then true
      else if match15 codigoLimpio then false
      else false
    else false

/-- The track classifier as the spec states it (§4.5): keyword evidence first
(graduate, then undergraduate), then the digit-prefix heuristic on the
letter-stripped code (7-9 with at least 3 digits ⇒ postgrado, 1-5 with at
least 4 digits ⇒ pregrado), defaulting to pregrado. -/
def trackSegunSpec (a : ActividadAsignatura) : String :=
  if hayKeywordPostgrado a then "postgrado"
  else if hayKeywordPregrado a then "pregrado"
  else
    let ds := quitaLetras a.codigo
    if matchDigitos ds ∧ (∃ c, ds.toList.head? = some c ∧ '7' ≤ c ∧ c ≤ '9') ∧ 3 ≤ ds.length then
      "postgrado"
    else if matchDigitos ds ∧ (∃ c, ds.toList.head? = some c ∧ '1' ≤ c ∧ c ≤ '5') ∧ 4 ≤ ds.length then
      "pregrado"
    else "pregrado"

/-! ## Section-title detection and table classification -/

/-- `_detectar_seccion_titulo` (univalle_scraper.py 305-353). -/
def detectar_seccion_titulo (t : Tabla) : Option String :=
  let texto := pyUpper t.texto
  let esTablaDatos :=
    strContains texto "NOMBRE DE ASIGNATURA" || strContains texto "HORAS SEMESTRE" ||
      strContains texto "CODIGO ESTUDIANTE" || strContains texto "APROBADO POR"
  if !esTablaDatos && (strContains texto "DIRECCION" && strContains texto "TESIS") then
    some "TESIS"
  else if !esTablaDatos && ((strContains texto "POSTGRADO" || strContains texto "POSGRADO")
      && !strContains texto "PREGRADO" && !strContains texto "TOTAL") then
    some "POSTGRADO"
  else if !esTablaDatos && (strContains texto "PREGRADO" && !strContains texto "POSTGRADO"
      && !strContains texto "POSGRADO" && !strContains texto "TOTAL") then
    some "PREGRADO"
  else if strContains texto "ACTIVIDADES DE INVESTIGACION" && !strContains texto "APROBADO" then
    some "INVESTIGACION"
  else if (strContains texto "ACTIVIDADES INTELECTUALES" || strContains texto "ARTISTICAS")
      && !strContains texto "APROBADO" then
    some "INTELECTUALES"
  else if strContains texto "ACTIVIDADES DE EXTENSION" && !strContains texto "TIPO" then
    some "EXTENSION"
  else if strContains texto "ACTIVIDADES ADMINISTRATIVAS" && !strContains texto "CARGO" then
    some "ADMINISTRATIVAS"
  else if strContains texto "ACTIVIDADES COMPLEMENTARIAS" && !strContains texto "PARTICIPACION" then
    some "COMPLEMENTARIAS"
  else if strContains texto "DOCENTE EN COMISION" && !strContains texto "TIPO DE COMISION" then
    some "COMISION"
  else none

/-- `_es_tabla_informacion_personal` (univalle_scraper.py 537-544). -/
def es_tabla_informacion_personal (headersUpper : List String) : Bool :=
  headersUpper.any (fun h => strContains h "CEDULA" || strContains h "DOCUMENTO" || h == "DOCENTES")
    && headersUpper.any (fun h => strContains h "APELLIDO" || strContains h "NOMBRE")

/-- `_es_tabla_asignaturas` (univalle_scraper.py 546-556). -/
def es_tabla_asignaturas (headersUpper : List String) : Bool :=
  let tieneCodigo := headersUpper.any (fun h =>
    h == "CODIGO" || (strContains h "CODIGO" && !strContains h "ESTUDIANTE"))
  let tieneNombre := headersUpper.any (fun h =>
    strContains h "NOMBRE" && strContains h "ASIGNATURA")
  let tieneHoras := headersUpper.any (fun h =>
    strContains h "HORAS" || strContains h "SEMESTRE")
  let noEsTesis := !headersUpper.any (fun h =>
    strContains h "ESTUDIANTE" || strContains h "TESIS")
  tieneCodigo && tieneNombre && tieneHoras && noEsTesis

/-- `_es_tabla_investigacion` (univalle_scraper.py 558-570); only the table
text decides. -/
def es_tabla_investigacion (t : Tabla) : Bool :=
  let texto := pyUpper t.texto
  let tieneTitulo := strContains texto "ACTIVIDADES DE INVESTIGACION"
  let tieneNombre := strContains texto "NOMBRE DEL PROYECTO"
    || strContains texto "NOMBRE DEL ANTEPROYECTO"
    || strContains texto "PROPUESTA DE INVESTIGACION"
  let tieneHoras := strContains texto "HORAS SEMESTRE"
  tieneTitulo && tieneNombre && tieneHoras

/-- `_es_tabla_tesis` (univalle_scraper.py 572-577). -/
def es_tabla_tesis (headersUpper : List String) : Bool :=
  let tieneEstudiante := headersUpper.any (fun h => strContains h "ESTUDIANTE")
  let tienePlan := headersUpper.any (fun h => strContains h "PLAN")
  let tieneTitulo := headersUpper.any (fun h => strContains h "TITULO" || strContains h "TESIS")
  tieneEstudiante && (tienePlan || tieneTitulo)

/-! ## Teaching-subject extraction (`_extraer_nombre_actividad_docencia`,
`_procesar_asignaturas`, `_procesar_asignaturas_con_seccion`) -/

/-- Step 4 of `_extraer_nombre_actividad_docencia`: longest cell text that is
not a number/percent, not 3 characters or fewer, and not code-shaped;
`mejor` carries the best candidate so far. -/
def mejorCandidatoNombre (mejor : String) : List String → String
  | [] => mejor
  | celda :: resto =>
    let valor := pyStrip celda
    if valor = "" then mejorCandidatoNombre mejor resto
    else if matchNumPct valor then mejorCandidatoNombre mejor resto
    else if valor.length ≤ 3 then mejorCandidatoNombre mejor resto
    else if matchCodigo valor then mejorCandidatoNombre mejor resto
    else if mejor.length < valor.length then mejorCandidatoNombre valor resto
    else mejorCandidatoNombre mejor resto

/-- Steps 1-2 of `_extraer_nombre_actividad_docencia` (634-649): index of the
NOMBRE DE ASIGNATURA header, else of a NOMBRE-but-not-CODIGO header, else -1. -/
def indiceNombreDocencia (headers : List String) : Int :=
  let idx1 := primerIdx (fun h =>
    let hu := pyStrip (pyUpper h)
    strContains hu "NOMBRE DE ASIGNATURA" || strContains hu "NOMBRE ASIGNATURA") headers
  if idx1 ≥ 0 then idx1
  else primerIdx (fun h =>
    let hu := pyStrip (pyUpper h)
    strContains hu "NOMBRE" && !strContains hu "CODIGO") headers

/-- Step 3 of `_extraer_nombre_actividad_docencia` (652-659): the indexed cell
value, unless missing, empty or a bare number/percent. -/
def porIndiceNombre (celdas : List String) (indiceNombre : Int) : String :=
  if 0 ≤ indiceNombre ∧ indiceNombre.toNat < celdas.length then
    let valor := pyStrip (celdaEn celdas indiceNombre)
    if valor ≠ "" ∧ !matchNumPct valor then valor else ""
  else ""

/-- `_extraer_nombre_actividad_docencia` (univalle_scraper.py 619-686). -/
def extraer_nombre_actividad_docencia (headers celdas : List String) : String :=
  if porIndiceNombre celdas (indiceNombreDocencia headers) ≠ "" then
    porIndiceNombre celdas (indiceNombreDocencia headers)
  else mejorCandidatoNombre "" celdas

/-- Column indices computed by `_procesar_asignaturas` (univalle_scraper.py
1405-1441), `-1` meaning "not found". -/
structure IdxAsig where
  horas : Int := -1
  codigo : Int := -1
  porc : Int := -1
  grupo : Int := -1
  tipo : Int := -1
  nombre : Int := -1
deriving DecidableEq, Repr

/-- One step of the header-index scan in `_procesar_asignaturas`. -/
def pasoIdxAsig (st : IdxAsig) (j : Nat) (header : String) : IdxAsig :=
  let hu := pyStrip (pyUpper header)
  if strContains hu "HORAS" && strContains hu "SEMESTRE" then { st with horas := (j : Int) }
  else if strContains hu "HORAS" && st.horas < 0 then { st with horas := (j : Int) }
  else if strContains hu "CODIGO" && !strContains hu "ESTUDIANTE" then { st with codigo := (j : Int) }
  else if strContains hu "PORC" then { st with porc := (j : Int) }
  else if strContains hu "GRUPO" then { st with grupo := (j : Int) }
  else if strContains hu "TIPO" && !strContains hu "COMISION" then { st with tipo := (j : Int) }
  else if strContains hu "NOMBRE" && strContains hu "ASIGNATURA" then { st with nombre := (j : Int) }
  else st

/-- Header-index scan of `_procesar_asignaturas`. -/
def indicesAsignaturas (headers : List String) : IdxAsig :=
  headers.enum.foldl (fun st ja => pasoIdxAsig st ja.1 ja.2) {}

/-- Hours fallback 1 of `_procesar_asignaturas` (1481-1489): first header
containing HORAS whose cell cleans to a non-empty digit/dot string. -/
def horasFallbackHeader (celdas : List String) : List (Nat × String) → String
  | [] => ""
  | (j, h) :: resto =>
    if j < celdas.length && strContains (pyUpper h) "HORAS" then
      let limpia := limpiarHorasStr (pyStrip (celdas.getD j ""))
      if limpia ≠ "" then limpia else horasFallbackHeader celdas resto
    else horasFallbackHeader celdas resto

/-- `float(valor) >= 10` for a string already matching `^(\d+)\.(\d+)$`: since
the fractional part lies in `[0, 1)`, the comparison is decided by the integer
part alone. -/
def valorDecimalGE10 (s : String) : Bool :=
  10 ≤ natDeDigitos (s.toList.takeWhile Char.isDigit)

/-- Hours fallback 2 of `_procesar_asignaturas` (1493-1501): right-most cell
matching `^(\d+)\.(\d+)$` with value at least 10 (the list passed here is the
reversed cell list). -/
def horasFallbackGrande : List String → String
  | [] => ""
  | c :: resto =>
    let valor := pyStrip c
    if matchDecimal valor && valorDecimalGE10 valor then valor
    else horasFallbackGrande resto

/-- The CRED/PORC/FREC/INTEN fill-in loop of `_procesar_asignaturas`
(1514-1527). -/
def extrasAsignatura (celdas : List String) (a : ActividadAsignatura) :
    List (Nat × String) → ActividadAsignatura
  | [] => a
  | (j, header) :: resto =>
    let a :=
      if j < celdas.length then
        let valor := pyStrip (celdas.getD j "")
        let hu := pyUpper header
        if strContains hu "CRED" && a.cred == "" then { a with cred := valor }
        else if strContains hu "PORC" && a.porc == "" then { a with porc := valor }
        else if strContains hu "FREC" && a.frec == "" then { a with frec := valor }
        else if strContains hu "INTEN" && a.inten == "" then { a with inten := valor }
        else a
      else a
    extrasAsignatura celdas a resto

/-- Hours-to-number conversion of `_procesar_asignaturas` (1529-1542):
strip all but digits and dot, `float` it and render it back, `'0'` on failure
or emptiness. -/
def conversionHoras (hs : String) : String :=
  if hs ≠ "" ∧ pyStrip hs ≠ "" then
    let limpia := soloDigitosPunto hs
    if limpia ≠ "" then
      match pyFloatPartes limpia with
      | some p => floatStrDe p.1 p.2
      | none => "0"
    else hs
  else "0"

/-- Final name cleanup of `_procesar_asignaturas` (1544-1550). -/
def limpiezaNombreFinal (n : String) : String :=
  if n ≠ "" then
    let nl := pyStrip n
    if terminaEnPct nl then pyStrip (quitaPctFinal nl) else nl
  else n

/-- Processing of one non-empty data row by `_procesar_asignaturas`
(1457-1550), before the retention check. -/
def filaAsignatura (headers : List String) (idx : IdxAsig) (idp : Int)
    (celdas : List String) : ActividadAsignatura :=
  let nombreDoc := extraer_nombre_actividad_docencia headers celdas
  let nombre0 :=
    if nombreDoc ≠ "" then pyStrip (colapsaWsStr (pyStrip (quitaPctFinal nombreDoc)))
    else ""
  let horas2 :=
    if 0 ≤ idx.horas ∧ idx.horas.toNat < celdas.length then
      limpiarHorasStr (pyStrip (celdaEn celdas idx.horas))
    else ""
  let horasFb1 := if horas2 = "" then horasFallbackHeader celdas headers.enum else horas2
  let horasFb2 := if horasFb1 = "" then horasFallbackGrande celdas.reverse else horasFb1
  let codigo :=
    if 0 ≤ idx.codigo ∧ idx.codigo.toNat < celdas.length then pyStrip (celdaEn celdas idx.codigo)
    else ""
  let grupo :=
    if 0 ≤ idx.grupo ∧ idx.grupo.toNat < celdas.length then pyStrip (celdaEn celdas idx.grupo)
    else ""
  let tipo :=
    if 0 ≤ idx.tipo ∧ idx.tipo.toNat < celdas.length then pyStrip (celdaEn celdas idx.tipo)
    else ""
  let a : ActividadAsignatura :=
    { codigo := codigo, nombre_asignatura := nombre0, grupo := grupo, tipo := tipo,
      horas_semestre := horasFb2, periodo := idp }
  let a := extrasAsignatura celdas a headers.enum
  let a := { a with horas_semestre := conversionHoras a.horas_semestre }
  { a with nombre_asignatura := limpiezaNombreFinal a.nombre_asignatura }

/-- `_procesar_asignaturas` (univalle_scraper.py 1395-1561): returns the
(pregrado, postgrado) lists. -/
def procesar_asignaturas (filas : List (List String)) (headers : List String)
    (idp : Int) : List ActividadAsignatura × List ActividadAsignatura :=
  let idx := indicesAsignaturas headers
  (filas.drop 1).foldl (fun prepost celdas =>
    if celdas.all (fun c => pyStrip c = "") then prepost
    else
      let a := filaAsignatura headers idx idp celdas
      if a.codigo ≠ "" ∨ a.nombre_asignatura ≠ "" then
        if es_postgrado a then (prepost.1, prepost.2 ++ [a])
        else (prepost.1 ++ [a], prepost.2)
      else prepost) ([], [])

/-- Header-index scan of `_procesar_asignaturas_con_seccion` (1597-1611):
as `pasoIdxAsig` but with no PORC branch. -/
def pasoIdxAsigSeccion (st : IdxAsig) (j : Nat) (header : String) : IdxAsig :=
  let hu := pyStrip (pyUpper header)
  if strContains hu "HORAS" && strContains hu "SEMESTRE" then { st with horas := (j : Int) }
  else if strContains hu "HORAS" && st.horas < 0 then { st with horas := (j : Int) }
  else if strContains hu "CODIGO" && !strContains hu "ESTUDIANTE" then { st with codigo := (j : Int) }
  else if strContains hu "GRUPO" then { st with grupo := (j : Int) }
  else if strContains hu "TIPO" && !strContains hu "COMISION" then { st with tipo := (j : Int) }
  else if strContains hu "NOMBRE" && strContains hu "ASIGNATURA" then { st with nombre := (j : Int) }
  else st

/-- `_procesar_asignaturas_con_seccion` (univalle_scraper.py 1563-1660):
extraction without the pregrado/postgrado heuristics; the `seccion` argument
only feeds logging in the source. -/
def procesar_asignaturas_con_seccion (filas : List (List String))
    (headers : List String) (idp : Int) (_seccion : String) : List ActividadAsignatura :=
  let idx := headers.enum.foldl (fun st ja => pasoIdxAsigSeccion st ja.1 ja.2) ({} : IdxAsig)
  (filas.drop 1).foldl (fun acc celdas =>
    if celdas.all (fun c => pyStrip c = "") then acc
    else
      let nombreDoc := extraer_nombre_actividad_docencia headers celdas
      let nombre0 :=
        if nombreDoc ≠ "" then pyStrip (colapsaWsStr (pyStrip (quitaPctFinal nombreDoc)))
        else ""
      let horas :=
        if 0 ≤ idx.horas ∧ idx.horas.toNat < celdas.length then
          let limpia := limpiarHorasStr (pyStrip (celdaEn celdas idx.horas))
          if limpia ≠ "" then
            match pyFloatPartes limpia with
            | some p => floatStrDe p.1 p.2
            | none => "0"
          else "0"
        else ""
      let codigo :=
        if 0 ≤ idx.codigo ∧ idx.codigo.toNat < celdas.length then pyStrip (celdaEn celdas idx.codigo)
        else ""
      let grupo :=
        if 0 ≤ idx.grupo ∧ idx.grupo.toNat < celdas.length then pyStrip (celdaEn celdas idx.grupo)
        else ""
      let tipo :=
        if 0 ≤ idx.tipo ∧ idx.tipo.toNat < celdas.length then pyStrip (celdaEn celdas idx.tipo)
        else ""
      let a : ActividadAsignatura :=
        { codigo := codigo, nombre_asignatura := nombre0, grupo := grupo, tipo := tipo,
          horas_semestre := horas, periodo := idp }
      if a.codigo ≠ "" ∨ a.nombre_asignatura ≠ "" then acc ++ [a] else acc) []

/-! ## Research, thesis and generic-family extraction -/

/-- Header-row search of `_procesar_investigacion` (1683-1695) over the first
(up to) 10 rows: the row whose flattened text names the project column and an
hours column. -/
def buscaHeaderInv : List (Nat × List String) → Option (Nat × List String)
  | [] => none
  | (i, fila) :: resto =>
    let filaTexto := pyUpper (textoFila fila)
    let tieneNombreProyecto := strContains filaTexto "NOMBRE DEL PROYECTO"
      || strContains filaTexto "NOMBRE DEL ANTEPROYECTO"
      || strContains filaTexto "PROPUESTA DE INVESTIGACION"
    let tieneHoras := strContains filaTexto "HORAS SEMESTRE" || strContains filaTexto "HORAS"
    if tieneNombreProyecto && tieneHoras then some (i, fila)
    else buscaHeaderInv resto

/-- Field mapping for one research data row (1710-1724). -/
def filaInvestigacion (headersActuales : List String) (idp : Int)
    (celdas : List String) : ActividadInvestigacion :=
  headersActuales.enum.foldl (fun a jh =>
    if jh.1 < celdas.length then
      let valor := celdas.getD jh.1 ""
      let hu := pyUpper jh.2
      if strContains hu "CODIGO" then { a with codigo := valor }
      else if strContains hu "APROBADO" then { a with aprobado_por := valor }
      else if strContains hu "NOMBRE" || strContains hu "ANTEPROYECTO"
          || strContains hu "PROPUESTA" then
        if a.nombre_proyecto = "" then { a with nombre_proyecto := valor } else a
      else if strContains hu "HORAS" then { a with horas_semestre := valor }
      else a
    else a) { periodo := idp }

/-- `_procesar_investigacion` (univalle_scraper.py 1662-1731); the `headers`
argument of the source is only the initial value the header search always
replaces, so it is dead here. -/
def procesar_investigacion (t : Tabla) (filas : List (List String))
    (_headers : List String) (idp : Int) : List ActividadInvestigacion :=
  let filasInternas :=
    match t.anidada with
    | some fi => if fi.isEmpty then filas else fi
    | none => if t.filas.isEmpty then filas else t.filas
  match buscaHeaderInv (filasInternas.take 10).enum with
  | none => []
  | some (i, headersActuales) =>
    (filasInternas.drop (i + 1)).foldl (fun acc celdas =>
      if celdas.length < 2 ∨ celdas.all (fun c => pyStrip c = "") then acc
      else
        let a := filaInvestigacion headersActuales idp celdas
        if a.nombre_proyecto ≠ "" ∨ a.horas_semestre ≠ "" then acc ++ [a]
        else acc) []

/-- The `actividad[header] = valor; actividad[header_norm] = valor` loop shared
by `_procesar_tesis` (1769-1774) and `_procesar_actividades_genericas`
(1914-1919). -/
def dictDeFila (headers celdas : List String) : AListStr :=
  headers.enum.foldl (fun d jh =>
    if jh.1 < celdas.length then
      let valor := pyStrip (celdas.getD jh.1 "")
      dictPon (dictPon d jh.2 valor) (pyUpper jh.2) valor
    else d) []

/-- First key of `claves` present in `d` with a truthy value. -/
def primeraClave (d : AListStr) : List String → String
  | [] => ""
  | k :: resto =>
    if dictTieneValor d k then dictBuscaD d k "" else primeraClave d resto

/-- First key of `claves` present in `d` whose stripped value fully matches
`^\d+\.?\d*$` (the hours lookups of tesis and generic rows). -/
def primeraClaveNum (d : AListStr) : List String → String
  | [] => ""
  | k :: resto =>
    if dictTieneValor d k then
      let val := pyStrip (dictBuscaD d k "")
      if val ≠ "" ∧ matchNum val then val else primeraClaveNum d resto
    else primeraClaveNum d resto

/-- First key of `claves` present in `d` whose stripped value is non-empty and
not a bare number (the generic-name lookup, 1955-1963). -/
def primeraClaveNoNum (d : AListStr) : List String → String
  | [] => ""
  | k :: resto =>
    if dictTieneValor d k then
      let valor := pyStrip (dictBuscaD d k "")
      if valor ≠ "" ∧ !matchNum valor then valor else primeraClaveNoNum d resto
    else primeraClaveNoNum d resto

/-- Column indices of `_procesar_tesis` (1742-1756). -/
structure IdxTesis where
  horas : Int := -1
  titulo : Int := -1
  estudiante : Int := -1
deriving DecidableEq, Repr

/-- Header-index scan of `_procesar_tesis`. -/
def indicesTesis (headers : List String) : IdxTesis :=
  headers.enum.foldl (fun st jh =>
    let hu := pyUpper jh.2
    let st :=
      if strContains hu "HORAS" && strContains hu "SEMESTRE" then { st with horas := (jh.1 : Int) }
      else if strContains hu "HORAS" && st.horas == -1 then { st with horas := (jh.1 : Int) }
      else st
    let st :=
      if strContains hu "TITULO" || strContains hu "TESIS" then { st with titulo := (jh.1 : Int) }
      else st
    if strContains hu "ESTUDIANTE" || strContains hu "CODIGO" then
      { st with estudiante := (jh.1 : Int) }
    else st) {}

/-- `_procesar_tesis` (univalle_scraper.py 1733-1815). -/
def procesar_tesis (filas : List (List String)) (headers : List String)
    (idp : Int) : List DictActividad :=
  let idx := indicesTesis headers
  (filas.drop 1).foldl (fun acc celdas =>
    if celdas.all (fun c => pyStrip c = "") then acc
    else
      let d := dictDeFila headers celdas
      let titulo0 := primeraClave d
        ["TITULO DE LA TESIS", "TITULO", "Titulo de la Tesis", "Titulo", "TESIS"]
      let titulo :=
        if titulo0 = "" ∧ 0 ≤ idx.titulo ∧ idx.titulo.toNat < celdas.length then
          pyStrip (celdaEn celdas idx.titulo)
        else titulo0
      let d := dictPon d "TITULO DE LA TESIS" titulo
      let horas0 := primeraClaveNum d ["HORAS SEMESTRE", "Horas Semestre", "HORAS", "Horas"]
      let horas :=
        if horas0 = "" ∧ 0 ≤ idx.horas ∧ idx.horas.toNat < celdas.length then
          let valorHoras := pyStrip (celdaEn celdas idx.horas)
          if valorHoras ≠ "" ∧ matchNum valorHoras then valorHoras else ""
        else horas0
      let d := dictPon d "HORAS SEMESTRE" horas
      let est0 := primeraClave d
        ["CODIGO ESTUDIANTE", "Codigo Estudiante", "ESTUDIANTE", "Estudiante"]
      let est :=
        if est0 = "" ∧ 0 ≤ idx.estudiante ∧ idx.estudiante.toNat < celdas.length then
          pyStrip (celdaEn celdas idx.estudiante)
        else est0
      let d := dictPon d "CODIGO ESTUDIANTE" est
      acc ++ [{ periodo := idp, kv := d }]) []

/-- Column indices of `_procesar_actividades_genericas` (1869-1901). -/
structure IdxGen where
  horas : Int := -1
  nombre : Int := -1
  titulo : Int := -1
  cargo : Int := -1
  descripcion : Int := -1
deriving DecidableEq, Repr

/-- Header-index scan of `_procesar_actividades_genericas`. -/
def indicesGenericas (headers : List String) : IdxGen :=
  headers.enum.foldl (fun st jh =>
    let hu := pyUpper jh.2
    let st :=
      if strContains hu "HORAS" && strContains hu "SEMESTRE" then { st with horas := (jh.1 : Int) }
      else if strContains hu "HORAS" && st.horas == -1 then { st with horas := (jh.1 : Int) }
      else st
    let st :=
      if (strContains hu "NOMBRE" && !strContains hu "ASIGNATURA")
          || (strContains hu "NOMBRE" && strContains hu "ANTEPROYECTO")
          || (strContains hu "NOMBRE" && strContains hu "PROYECTO") then
        if st.nombre == -1 then { st with nombre := (jh.1 : Int) } else st
      else st
    let st := if strContains hu "TITULO" then { st with titulo := (jh.1 : Int) } else st
    let st :=
      if strContains hu "CARGO" && !strContains hu "DESCRIPCION" then
        { st with cargo := (jh.1 : Int) }
      else st
    if strContains hu "DESCRIPCION" then { st with descripcion := (jh.1 : Int) } else st) {}

/-- `_procesar_actividades_genericas` (univalle_scraper.py 1860-2007). -/
def procesar_actividades_genericas (filas : List (List String))
    (headers : List String) (idp : Int) : List DictActividad :=
  let idx := indicesGenericas headers
  (filas.drop 1).foldl (fun acc celdas =>
    if celdas.all (fun c => pyStrip c = "") then acc
    else
      let d := dictDeFila headers celdas
      let horas0 :=
        if 0 ≤ idx.horas ∧ idx.horas.toNat < celdas.length then
          let valorHoras := pyStrip (celdaEn celdas idx.horas)
          if valorHoras ≠ "" ∧ matchNum valorHoras then valorHoras else ""
        else ""
      let horas :=
        if horas0 = "" then
          primeraClaveNum d ["HORAS SEMESTRE", "Horas Semestre", "HORAS", "Horas"]
        else horas0
      let d := dictPon d "HORAS SEMESTRE" horas
      let nombre0 :=
        if 0 ≤ idx.nombre ∧ idx.nombre.toNat < celdas.length then
          let nombreRaw := pyStrip (celdaEn celdas idx.nombre)
          if nombreRaw ≠ "" ∧ !matchNum nombreRaw then nombreRaw else ""
        else ""
      let nombre :=
        if nombre0 = "" then
          primeraClaveNoNum d
            ["NOMBRE DEL ANTEPROYECTO O PROPUESTA DE INVESTIGACION",
             "NOMBRE DEL PROYECTO", "NOMBRE", "Nombre"]
        else nombre0
      let d := dictPon d "NOMBRE" nombre
      let titulo0 :=
        if 0 ≤ idx.titulo ∧ idx.titulo.toNat < celdas.length then
          pyStrip (celdaEn celdas idx.titulo)
        else ""
      let titulo := if titulo0 = "" then primeraClave d ["TITULO", "Titulo"] else titulo0
      let d := dictPon d "TITULO" titulo
      let cargo0 :=
        if 0 ≤ idx.cargo ∧ idx.cargo.toNat < celdas.length then
          pyStrip (celdaEn celdas idx.cargo)
        else ""
      let cargo := if cargo0 = "" then primeraClave d ["CARGO", "Cargo"] else cargo0
      let d := dictPon d "CARGO" cargo
      let desc0 :=
        if 0 ≤ idx.descripcion ∧ idx.descripcion.toNat < celdas.length then
          pyStrip (celdaEn celdas idx.descripcion)
        else ""
      let desc :=
        if desc0 = "" then
          primeraClave d
            ["DESCRIPCION DEL CARGO", "DESCRIPCION", "Descripcion del Cargo", "Descripcion"]
        else desc0
      let d := dictPon (dictPon d "DESCRIPCION DEL CARGO" desc) "DESCRIPCION" desc
      acc ++ [{ periodo := idp, kv := d }]) []

/-- `_procesar_otras_actividades` (univalle_scraper.py 1817-1858). -/
def procesar_otras_actividades (t : Tabla) (filas : List (List String))
    (headers : List String) (headersUpper : List String) (idp : Int)
    (res : DatosDocente) : DatosDocente :=
  let textoTabla := pyUpper t.texto
  if strContains textoTabla "ACTIVIDADES INTELECTUALES"
      || strContains textoTabla "ARTISTICAS" then
    { res with actividades_intelectuales :=
        res.actividades_intelectuales ++ procesar_actividades_genericas filas headers idp }
  else if headersUpper.any (fun h => strContains h "PARTICIPACION EN") then
    { res with actividades_complementarias :=
        res.actividades_complementarias ++ procesar_actividades_genericas filas headers idp }
  else if headersUpper.any (fun h => strContains h "TIPO DE COMISION") then
    { res with docente_en_comision :=
        res.docente_en_comision ++ procesar_actividades_genericas filas headers idp }
  else if headersUpper.contains "CARGO" && headersUpper.contains "DESCRIPCION DEL CARGO" then
    { res with actividades_administrativas :=
        res.actividades_administrativas ++ procesar_actividades_genericas filas headers idp }
  else if headersUpper.contains "TIPO" && headersUpper.contains "NOMBRE"
      && headersUpper.any (fun h => strContains h "HORAS" || strContains h "SEMESTRE")
      && !headersUpper.any (fun h => strContains h "APROBADO") then
    { res with actividades_extension :=
        res.actividades_extension ++ procesar_actividades_genericas filas headers idp }
  else res

/-! ## Personal information: structural pass (`_procesar_informacion_personal`) -/

/-- Row-2 header mapping of `_procesar_informacion_personal` (1315-1337):
assignments are unconditional. -/
def mapeaFila2 (info0 : InformacionPersonal) (headers valoresFila2 : List String) :
    InformacionPersonal :=
  headers.enum.foldl (fun info ih =>
    if ih.1 < valoresFila2.length then
      let valor := pyStrip (valoresFila2.getD ih.1 "")
      let hu := pyUpper ih.2
      if strContains hu "CEDULA" then { info with cedula := valor }
      else if strContains hu "1 APELLIDO" || hu == "APELLIDO1" then
        { info with apellido1 := valor }
      else if strContains hu "2 APELLIDO" || hu == "APELLIDO2" then
        { info with apellido2 := valor }
      else if hu == "NOMBRE" then { info with nombre := valor }
      else if strContains hu "UNIDAD" && strContains hu "ACADEMICA" then
        { info with unidad_academica := valor }
      else if strContains hu "ESCUELA" then { info with escuela := valor }
      else if strContains hu "DEPARTAMENTO" || strContains hu "DPTO" then
        { info with departamento := valor }
      else if strContains hu "CARGO" then { info with cargo := valor }
      else info
    else info) info0

/-- Row-4 header mapping of `_procesar_informacion_personal` (1348-1370):
values are not stripped and assignments are unconditional. -/
def mapeaFila4 (info0 : InformacionPersonal) (headersFila4 valoresFila4 : List String) :
    InformacionPersonal :=
  headersFila4.enum.foldl (fun info ih =>
    if ih.1 < valoresFila4.length then
      let valor := valoresFila4.getD ih.1 ""
      let hu := pyUpper ih.2
      if strContains hu "VINCULACION" || strContains hu "VINCULACIÓN" then
        { info with vinculacion := valor }
      else if strContains hu "CATEGORIA" || strContains hu "CATEGORÍA" then
        { info with categoria := valor }
      else if strContains hu "DEDICACION" || strContains hu "DEDICACIÓN" then
        { info with dedicacion := valor }
      else if strContains hu "NIVEL" && strContains hu "ALCANZADO" then
        { info with nivel_alcanzado := valor }
      else if strContains hu "CENTRO" && strContains hu "COSTO" then
        { info with centro_costo := valor }
      else if strContains hu "CARGO" then { info with cargo := valor }
      else if strContains hu "DEPARTAMENTO" || strContains hu "DPTO" then
        { info with departamento := valor }
      else if strContains hu "ESCUELA" then { info with escuela := valor }
      else info
    else info) info0

/-- Label/value pair scan of one extra row (1383-1393), guarded by emptiness. -/
def escaneaFilaExtra (info0 : InformacionPersonal) (celdas : List String) :
    InformacionPersonal :=
  celdas.enum.foldl (fun info jc =>
    let celdaUpper := pyStrip (pyUpper jc.2)
    if jc.1 + 1 < celdas.length then
      let valorSiguiente := pyStrip (celdas.getD (jc.1 + 1) "")
      if strContains celdaUpper "CARGO" && info.cargo == "" then
        { info with cargo := valorSiguiente }
      else if (strContains celdaUpper "DEPARTAMENTO" || strContains celdaUpper "DPTO")
          && info.departamento == "" then
        { info with departamento := valorSiguiente }
      else if strContains celdaUpper "ESCUELA" && info.escuela == "" then
        { info with escuela := valorSiguiente }
      else info
    else info) info0

/-- `_procesar_informacion_personal` (univalle_scraper.py 1300-1393), the
regex-era structural pass run from the table loop. -/
def procesar_informacion_personal (filas : List (List String))
    (info0 : InformacionPersonal) : InformacionPersonal :=
  if filas.length < 4 then info0
  else
    let headers := filas.getD 0 []
    let valoresFila2 := filas.getD 1 []
    let valoresFila4 := filas.getD 3 []
    let info := mapeaFila2 info0 headers valoresFila2
    let info :=
      if info.departamento = "" ∧ 4 < valoresFila2.length then
        let valorPosicion4 := pyStrip (valoresFila2.getD 4 "")
        if valorPosicion4 ≠ "" ∧ strContains (pyUpper valorPosicion4) "DEPARTAMENTO" then
          { info with departamento := valorPosicion4 }
        else info
      else info
    let headersFila4 := filas.getD 2 []
    let info := mapeaFila4 info headersFila4 valoresFila4
    let info :=
      if 5 ≤ valoresFila4.length ∧ info.vinculacion = "" then
        { info with
          vinculacion := valoresFila4.getD 0 "",
          categoria := valoresFila4.getD 1 "",
          dedicacion := valoresFila4.getD 2 "",
          nivel_alcanzado := valoresFila4.getD 3 "",
          centro_costo := valoresFila4.getD 4 "" }
      else info
    ((filas.drop 4).take 6).foldl escaneaFilaExtra info

/-! ## Personal information: BeautifulSoup pass
(`_extraer_datos_personales_con_soup`) -/

/-- One header/value assignment of the soup pass row-1 mapping (1215-1244):
every assignment is guarded by the field being empty. -/
def soupFila1Paso (valoresFila2 : List String) (info : InformacionPersonal)
    (x : Nat × String) : InformacionPersonal :=
  let valor := if x.1 < valoresFila2.length then valoresFila2.getD x.1 "" else ""
  if valor = "" then info
  else
    let h := x.2
    if strContains h "CEDULA" || strContains h "DOCUMENTO" then
      if info.cedula == "" && pyEsDigitos valor then { info with cedula := valor } else info
    else if strContains h "1 APELLIDO" || h == "APELLIDO1" then
      if info.apellido1 == "" then { info with apellido1 := valor } else info
    else if strContains h "2 APELLIDO" || h == "APELLIDO2" then
      if info.apellido2 == "" then { info with apellido2 := valor } else info
    else if h == "NOMBRE" then
      if info.nombre == "" && pyEsAlpha valor then { info with nombre := valor } else info
    else if strContains h "UNIDAD" && strContains h "ACADEMICA" then
      if info.unidad_academica == "" then { info with unidad_academica := valor } else info
    else if strContains h "ESCUELA" then
      if info.escuela == "" then { info with escuela := valor } else info
    else if strContains h "DEPARTAMENTO" || strContains h "DPTO" then
      if info.departamento == "" then { info with departamento := valor } else info
    else if strContains h "CARGO" then
      if info.cargo == "" then { info with cargo := valor } else info
    else info

/-- Row-1/row-2 header mapping of the soup pass (1215-1244). -/
def soupMapeaFila1 (info0 : InformacionPersonal) (headersFila1 valoresFila2 : List String) :
    InformacionPersonal :=
  headersFila1.enum.foldl (soupFila1Paso valoresFila2) info0

/-- One header/value assignment of the soup pass row-3/row-4 mapping
(1246-1276), guarded. -/
def soupFila3Paso (valoresFila4 : List String) (info : InformacionPersonal)
    (x : Nat × String) : InformacionPersonal :=
  let valor := if x.1 < valoresFila4.length then valoresFila4.getD x.1 "" else ""
  if valor = "" then info
  else
    let h := x.2
    if strContains h "VINCULACION" || strContains h "VINCULACIÓN" then
      if info.vinculacion == "" then { info with vinculacion := valor } else info
    else if strContains h "CATEGORIA" || strContains h "CATEGORÍA" then
      if info.categoria == "" then { info with categoria := valor } else info
    else if strContains h "DEDICACION" || strContains h "DEDICACIÓN" then
      if info.dedicacion == "" then { info with dedicacion := valor } else info
    else if strContains h "NIVEL" && strContains h "ALCANZADO" then
      if info.nivel_alcanzado == "" then { info with nivel_alcanzado := valor } else info
    else if strContains h "CENTRO" && strContains h "COSTO" then
      if info.centro_costo == "" then { info with centro_costo := valor } else info
    else if strContains h "CARGO" then
      if info.cargo == "" then { info with cargo := valor } else info
    else if strContains h "DEPARTAMENTO" || strContains h "DPTO" then
      if info.departamento == "" then { info with departamento := valor } else info
    else if strContains h "ESCUELA" then
      if info.escuela == "" then { info with escuela := valor } else info
    else info

/-- Row-3/row-4 header mapping of the soup pass (1246-1276). -/
def soupMapeaFila3 (info0 : InformacionPersonal) (headersFila3 valoresFila4 : List String) :
    InformacionPersonal :=
  headersFila3.enum.foldl (soupFila3Paso valoresFila4) info0

/-- One label/value pair of the rows 5-10 scan of the soup pass (1282-1292),
guarded. -/
def soupExtraPaso (celdas : List String) (info : InformacionPersonal)
    (x : Nat × String) : InformacionPersonal :=
  let campo := pyUpper x.2
  let valor := celdas.getD (x.1 + 1) ""
  if valor = "" then info
  else if strContains campo "CARGO" && info.cargo == "" then
    { info with cargo := valor }
  else if (strContains campo "DEPARTAMENTO" || strContains campo "DPTO")
      && info.departamento == "" then
    { info with departamento := valor }
  else if strContains campo "ESCUELA" && info.escuela == "" then
    { info with escuela := valor }
  else info

/-- Label/value pair scan of rows 5-10 in the soup pass (1278-1292). -/
def soupEscaneaExtra (info0 : InformacionPersonal) (celdas : List String) :
    InformacionPersonal :=
  if celdas.length < 2 then info0
  else (celdas.enum.take (celdas.length - 1)).foldl (soupExtraPaso celdas) info0

/-- Processing of one table by the soup pass (1199-1292). -/
def soupTabla (info0 : InformacionPersonal) (t : Tabla) : InformacionPersonal :=
  let filas := t.filas
  let headersFila1 := (filas.getD 0 []).map pyUpper
  let info := soupMapeaFila1 info0 headersFila1 (filas.getD 1 [])
  let info :=
    if 3 < filas.length then
      soupMapeaFila3 info ((filas.getD 2 []).map pyUpper) (filas.getD 3 [])
    else info
  ((filas.drop 4).take 6).foldl soupEscaneaExtra info

/-- Whether the soup pass skips a table (fewer than 2 rows, or none of the six
exact header literals present in its upper-cased first row). -/
def soupSalta (t : Tabla) : Bool :=
  t.filas.length < 2 ||
    !(["CEDULA", "DOCUMENTO", "1 APELLIDO", "2 APELLIDO", "NOMBRE", "UNIDAD ACADEMICA"].any
      (fun h => ((t.filas.getD 0 []).map pyUpper).contains h))

/-- `_extraer_datos_personales_con_soup` (univalle_scraper.py 1191-1298): the
tables loop with its early exit once a cedula or name is known. -/
def extraer_datos_personales_con_soup (tablas : List Tabla)
    (info : InformacionPersonal) : InformacionPersonal :=
  match tablas with
  | [] => info
  | t :: resto =>
    if soupSalta t then extraer_datos_personales_con_soup resto info
    else
      let info := soupTabla info t
      if info.cedula ≠ "" ∨ info.nombre ≠ "" then info
      else extraer_datos_personales_con_soup resto info

/-! ## Personal information: flat-text regex pass
(`_extraer_info_personal_desde_texto_plano`) -/

/-- Case-insensitive match of a character-set pattern at the head of `cs`,
returning the rest. -/
def coincideLitCI : List (List Char) → List Char → Option (List Char)
  | [], cs => some cs
  | _ :: _, [] => none
  | conjunto :: resto, c :: cs =>
    if conjunto.any (fun p => p.toLower == c.toLower) then coincideLitCI resto cs else none

/-- A literal pattern, one singleton character set per character. -/
def litPat (s : String) : List (List Char) := s.toList.map (fun c => [c])

/-- After a field-name matcher, the `\s*[=:]\s*([^\s,<>&"\']+)` tail of the
flat-text patterns (2775-2791). -/
def patValorTras (m : List Char → Option (List Char)) (cs : List Char) : Option String :=
  match m cs with
  | none => none
  | some r1 =>
    let r2 := r1.dropWhile Char.isWhitespace
    match r2 with
    | c :: r3 =>
      if c == '=' || c == ':' then
        let r4 := r3.dropWhile Char.isWhitespace
        let cap := r4.takeWhile (fun ch => !ch.isWhitespace && !(ch == ',') && !(ch == '<')
          && !(ch == '>') && !(ch == '&') && !(ch == '"') && !(ch == '\''))
        if cap.isEmpty then none else some (String.mk cap)
      else none
    | [] => none

/-- `re.search`: the pattern tried at every start position, leftmost match. -/
def buscaPatron (m : List Char → Option (List Char)) : List Char → Option String
  | [] => patValorTras m []
  | c :: resto =>
    match patValorTras m (c :: resto) with
    | some v => some v
    | none => buscaPatron m resto

/-- First pattern of a field whose match passes the value checks
(non-empty, shorter than 100, no `<`), as in 2804-2818. -/
def campoFlat (hn : List Char) : List (List Char → Option (List Char)) → Option String
  | [] => none
  | m :: resto =>
    match buscaPatron m hn with
    | some v =>
      let valor := pyStrip v
      if valor ≠ "" ∧ valor.length < 100 ∧ !strContains valor "<" then some valor
      else campoFlat hn resto
    | none => campoFlat hn resto

/-- `&nbsp;` and newline replacement plus whitespace collapsing (2771-2772). -/
def normalizaHtmlPlano (html : String) : String :=
  colapsaWsStr (reemplaza (reemplaza html "&nbsp;" " ") "\n" " ")

/-- The two VINCULACION patterns (the second with the accented O). -/
def patsVinculacion : List (List Char → Option (List Char)) :=
  [coincideLitCI (litPat "VINCULACION"),
   coincideLitCI (litPat "VINCULACI" ++ [['O', 'Ó']] ++ litPat "N")]

/-- The two CATEGORIA patterns. -/
def patsCategoria : List (List Char → Option (List Char)) :=
  [coincideLitCI (litPat "CATEGORIA"),
   coincideLitCI (litPat "CATEGOR" ++ [['I', 'Í']] ++ litPat "A")]

/-- The two DEDICACION patterns. -/
def patsDedicacion : List (List Char → Option (List Char)) :=
  [coincideLitCI (litPat "DEDICACION"),
   coincideLitCI (litPat "DEDICACI" ++ [['O', 'Ó']] ++ litPat "N")]

/-- The NIVEL\s+ALCANZADO pattern. -/
def patsNivel : List (List Char → Option (List Char)) :=
  [fun cs => coincideLitCI (litPat "NIVEL") cs >>= quitaWs1 >>= coincideLitCI (litPat "ALCANZADO")]

/-- One iteration of the flat-text loop for VINCULACION: fill only when
empty. -/
def flatPasoVinculacion (hn : List Char) (info : InformacionPersonal) : InformacionPersonal :=
  if info.vinculacion ≠ "" then info
  else match campoFlat hn patsVinculacion with
    | some v => { info with vinculacion := v }
    | none => info

/-- One iteration of the flat-text loop for CATEGORIA. -/
def flatPasoCategoria (hn : List Char) (info : InformacionPersonal) : InformacionPersonal :=
  if info.categoria ≠ "" then info
  else match campoFlat hn patsCategoria with
    | some v => { info with categoria := v }
    | none => info

/-- One iteration of the flat-text loop for DEDICACION. -/
def flatPasoDedicacion (hn : List Char) (info : InformacionPersonal) : InformacionPersonal :=
  if info.dedicacion ≠ "" then info
  else match campoFlat hn patsDedicacion with
    | some v => { info with dedicacion := v }
    | none => info

/-- One iteration of the flat-text loop for NIVEL ALCANZADO. -/
def flatPasoNivel (hn : List Char) (info : InformacionPersonal) : InformacionPersonal :=
  if info.nivel_alcanzado ≠ "" then info
  else match campoFlat hn patsNivel with
    | some v => { info with nivel_alcanzado := v }
    | none => info

/-- `_extraer_info_personal_desde_texto_plano` (univalle_scraper.py
2760-2818): each of the four fields is filled from the flat text only when
still empty, in the loop's insertion order. -/
def extraer_info_personal_desde_texto_plano (html : String)
    (info : InformacionPersonal) : InformacionPersonal :=
  let hn := (normalizaHtmlPlano html).toList
  flatPasoNivel hn (flatPasoDedicacion hn (flatPasoCategoria hn (flatPasoVinculacion hn info)))

/-! ## The document loop (`_extraer_actividades_desde_html`, 2360-2697) -/

/-- `_procesar_tabla_con_contexto` (univalle_scraper.py 355-432): re-aim at a
nested table when present, then force the extractor named by the pending
section. -/
def procesar_tabla_con_contexto (t : Tabla) (filas : List (List String))
    (headers : List String) (idp : Int) (seccion : String)
    (res : DatosDocente) : DatosDocente :=
  let filas' :=
    match t.anidada with
    | some fi => fi
    | none => filas
  let headers' :=
    match t.anidada with
    | some fi => if !fi.isEmpty then fi.headD [] else headers
    | none => headers
  if seccion = "INVESTIGACION" then
    { res with actividades_investigacion :=
        res.actividades_investigacion ++ procesar_investigacion t filas' headers' idp }
  else if seccion = "INTELECTUALES" then
    { res with actividades_intelectuales :=
        res.actividades_intelectuales ++ procesar_actividades_genericas filas' headers' idp }
  else if seccion = "EXTENSION" then
    { res with actividades_extension :=
        res.actividades_extension ++ procesar_actividades_genericas filas' headers' idp }
  else if seccion = "ADMINISTRATIVAS" then
    { res with actividades_administrativas :=
        res.actividades_administrativas ++ procesar_actividades_genericas filas' headers' idp }
  else if seccion = "COMPLEMENTARIAS" then
    { res with actividades_complementarias :=
        res.actividades_complementarias ++ procesar_actividades_genericas filas' headers' idp }
  else if seccion = "COMISION" then
    { res with docente_en_comision :=
        res.docente_en_comision ++ procesar_actividades_genericas filas' headers' idp }
  else if seccion = "PREGRADO" then
    { res with actividades_pregrado :=
        res.actividades_pregrado ++ procesar_asignaturas_con_seccion filas' headers' idp "pregrado" }
  else if seccion = "POSTGRADO" then
    { res with actividades_postgrado :=
        res.actividades_postgrado ++ procesar_asignaturas_con_seccion filas' headers' idp "postgrado" }
  else if seccion = "TESIS" then
    { res with actividades_tesis :=
        res.actividades_tesis ++ procesar_tesis filas' headers' idp }
  else res

/-- The no-pending-context classification chain of the table loop (2427-2453);
`_procesar_otras_actividades` always runs afterwards. -/
def procesarTablaSinContexto (t : Tabla) (filas : List (List String))
    (headers : List String) (headersUpper : List String) (idp : Int)
    (res : DatosDocente) : DatosDocente :=
  let res1 :=
    if es_tabla_informacion_personal headersUpper then
      { res with informacion_personal :=
          procesar_informacion_personal filas res.informacion_personal }
    else if es_tabla_asignaturas headersUpper then
      let prepost := procesar_asignaturas filas headers idp
      { res with
        actividades_pregrado := res.actividades_pregrado ++ prepost.1,
        actividades_postgrado := res.actividades_postgrado ++ prepost.2 }
    else if es_tabla_investigacion t then
      { res with actividades_investigacion :=
          res.actividades_investigacion ++ procesar_investigacion t filas headers idp }
    else if es_tabla_tesis headersUpper then
      { res with actividades_tesis :=
          res.actividades_tesis ++ procesar_tesis filas headers idp }
    else res
  procesar_otras_actividades t filas headers headersUpper idp res1

/-- Python truthiness of the `seccion_actual` variable (`None` or a section
name). -/
def seccionPendiente : Option String → Bool
  | none => false
  | some s => s ≠ ""

/-- One iteration of the table loop (2402-2453), carrying the pending section
and the accumulated `DatosDocente`. -/
def pasoTabla (idp : Int) (st : Option String × DatosDocente) (t : Tabla) :
    Option String × DatosDocente :=
  match detectar_seccion_titulo t with
  | some s => (some s, st.2)
  | none =>
    if t.filas.isEmpty then st
    else
      let headers := t.filas.headD []
      let headersUpper := headers.map pyUpper
      if seccionPendiente st.1 then
        (none, procesar_tabla_con_contexto t t.filas headers idp (st.1.getD "") st.2)
      else
        (none, procesarTablaSinContexto t t.filas headers headersUpper idp st.2)

/-- `_extraer_escuela_departamento` (univalle_scraper.py 1144-1189). -/
def extraer_escuela_departamento (unidadAcademica : String) : String × String :=
  if unidadAcademica = "" then ("", "")
  else
    let partes := palabras (pyStrip unidadAcademica)
    match partes with
    | [] => ("", "")
    | [p] => (p, "")
    | p :: resto =>
      let escuelaPartes := resto.filter (fun w => !(pyUpper w == "ESCUELA" || pyUpper w == "DEPARTAMENTO"))
      (p, uneCon " " escuelaPartes)

/-- School/department derivation as the spec states it (§4.6): split the
combined field on whitespace, first token is the department, the remaining
tokens minus the literals ESCUELA and DEPARTAMENTO join into the school. -/
def escuelaDeptSegunSpec (unidadAcademica : String) : String × String :=
  match palabras unidadAcademica with
  | [] => ("", "")
  | p :: resto =>
    (p, uneCon " " (resto.filter (fun w => !(pyUpper w == "ESCUELA" || pyUpper w == "DEPARTAMENTO"))))

/-- `_construir_actividad_dict` (univalle_scraper.py 2699-2758). -/
def construir_actividad_dict (cedula nombreProfesor escuela departamento
    tipoActividad categoria nombreActividad numeroHoras periodo actividad
    vinculacion dedicacion nivel : String) : ActivityRecord :=
  let nombreLimpio := pyStrip nombreActividad
  let nombreLimpio :=
    if terminaEnPct nombreLimpio then pyStrip (quitaPctFinal nombreLimpio)
    else nombreLimpio
  { cedula := cedula,
    nombre_profesor := nombreProfesor,
    escuela := limpiar_escuela escuela,
    departamento := limpiar_departamento departamento,
    tipo_actividad := tipoActividad,
    categoria := categoria,
    nombre_actividad := nombreLimpio,
    numero_horas := parsear_horas numeroHoras,
    periodo := periodo,
    actividad := actividad,
    vinculacion := vinculacion,
    dedicacion := dedicacion,
    nivel := nivel }

/-- Research category helper of the assembly (2554-2558). -/
def determinarCategoriaInvestigacion (a : ActividadInvestigacion) : String :=
  if strContains (pyUpper a.nombre_proyecto) "ANTEPROYECTO" then "Anteproyecto" else "Proyecto"

/-- `_extraer_actividades_desde_html` (univalle_scraper.py 2360-2697): the
table loop, the two extra personal-info passes, the school/department
derivation, and the per-family assembly into `ActivityRecord`s, in source
order.  `tablas` stands for `extraer_tablas(html)` and `htmlPlano` for the
raw document handed to the flat-text pass. -/
def extraer_actividades_desde_html (tablas : List Tabla) (htmlPlano : String)
    (cedula : String) (idPeriodo : Int) (periodoLabel : String) : List ActivityRecord :=
  let res0 : DatosDocente := { periodo := idPeriodo }
  let fin := tablas.foldl (pasoTabla idPeriodo) (none, res0)
  let res := fin.2
  let info := extraer_datos_personales_con_soup tablas res.informacion_personal
  let info := extraer_info_personal_desde_texto_plano htmlPlano info
  let nombreCompleto := formatear_nombre_completo info.nombre info.apellido1 info.apellido2
  let deptEsc :=
    if info.unidad_academica ≠ "" then extraer_escuela_departamento info.unidad_academica
    else
      let escuelaRaw := info.escuela
      let departamentoRaw := info.departamento
      (if departamentoRaw ≠ "" then limpiar_departamento departamentoRaw else "",
       if escuelaRaw ≠ "" then limpiar_escuela escuelaRaw else "")
  let departamento := deptEsc.1
  let escuela := deptEsc.2
  let vinculacion := info.vinculacion
  let dedicacion := info.dedicacion
  let nivel := info.nivel_alcanzado
  (res.actividades_pregrado.map (fun a =>
    construir_actividad_dict cedula nombreCompleto escuela departamento
      "Docencia" "Pregrado" a.nombre_asignatura a.horas_semestre periodoLabel
      "ACTIVIDADES DE DOCENCIA" vinculacion dedicacion nivel)) ++
  (res.actividades_postgrado.map (fun a =>
    construir_actividad_dict cedula nombreCompleto escuela departamento
      "Docencia" "Postgrado" a.nombre_asignatura a.horas_semestre periodoLabel
      "ACTIVIDADES DE DOCENCIA" vinculacion dedicacion nivel)) ++
  (res.actividades_investigacion.map (fun a =>
    construir_actividad_dict cedula nombreCompleto escuela departamento
      "Investigación" (determinarCategoriaInvestigacion a) a.nombre_proyecto
      a.horas_semestre periodoLabel "ACTIVIDADES DE INVESTIGACION"
      vinculacion dedicacion nivel)) ++
  (res.actividades_tesis.map (fun d =>
    let tituloTesis := pyOr (pyOr (dictBuscaD d.kv "TITULO DE LA TESIS" "")
      (dictBuscaD d.kv "Titulo de la Tesis" "")) (dictBuscaD d.kv "TITULO" "")
    let horasTesis := pyOr (dictBuscaD d.kv "HORAS SEMESTRE" "") (dictBuscaD d.kv "Horas Semestre" "")
    construir_actividad_dict cedula nombreCompleto escuela departamento
      "Docencia" "Tesis" tituloTesis horasTesis periodoLabel
      "ACTIVIDADES DE DOCENCIA" vinculacion dedicacion nivel)) ++
  (res.actividades_extension.map (fun d =>
    construir_actividad_dict cedula nombreCompleto escuela departamento
      "Extensión" (pyOr (dictBuscaD d.kv "TIPO" "") (dictBuscaD d.kv "Tipo" ""))
      (pyOr (dictBuscaD d.kv "NOMBRE" "") (dictBuscaD d.kv "Nombre" ""))
      (pyOr (dictBuscaD d.kv "HORAS SEMESTRE" "") (dictBuscaD d.kv "Horas Semestre" ""))
      periodoLabel "ACTIVIDADES DE EXTENSION" vinculacion dedicacion nivel)) ++
  (res.actividades_intelectuales.map (fun d =>
    construir_actividad_dict cedula nombreCompleto escuela departamento
      "Intelectuales" (pyOr (dictBuscaD d.kv "TIPO" "") (dictBuscaD d.kv "Tipo" ""))
      (pyOr (dictBuscaD d.kv "NOMBRE" "") (dictBuscaD d.kv "Nombre" ""))
      (pyOr (dictBuscaD d.kv "HORAS SEMESTRE" "") (dictBuscaD d.kv "Horas Semestre" ""))
      periodoLabel "ACTIVIDADES INTELECTUALES O ARTISTICAS" vinculacion dedicacion nivel)) ++
  (res.actividades_administrativas.map (fun d =>
    construir_actividad_dict cedula nombreCompleto escuela departamento
      "Administrativas" (pyOr (dictBuscaD d.kv "CARGO" "") (dictBuscaD d.kv "Cargo" ""))
      (pyOr (dictBuscaD d.kv "DESCRIPCION DEL CARGO" "") (dictBuscaD d.kv "DESCRIPCION" ""))
      (pyOr (dictBuscaD d.kv "HORAS SEMESTRE" "") (dictBuscaD d.kv "Horas Semestre" ""))
      periodoLabel "ACTIVIDADES ADMINISTRATIVAS" vinculacion dedicacion nivel)) ++
  (res.actividades_complementarias.map (fun d =>
    construir_actividad_dict cedula nombreCompleto escuela departamento
      "Complementarias" (dictBuscaD d.kv "PARTICIPACION EN" "")
      (pyOr (dictBuscaD d.kv "NOMBRE" "") (dictBuscaD d.kv "Nombre" ""))
      (pyOr (dictBuscaD d.kv "HORAS SEMESTRE" "") (dictBuscaD d.kv "Horas Semestre" ""))
      periodoLabel "ACTIVIDADES COMPLEMENTARIAS" vinculacion dedicacion nivel)) ++
  (res.docente_en_comision.map (fun d =>
    construir_actividad_dict cedula nombreCompleto escuela departamento
      "Comisión" (pyOr (dictBuscaD d.kv "TIPO DE COMISION" "") (dictBuscaD d.kv "Tipo de Comision" ""))
      (pyOr (dictBuscaD d.kv "DESCRIPCION" "") (dictBuscaD d.kv "Descripcion" ""))
      (pyOr (dictBuscaD d.kv "HORAS SEMESTRE" "") (dictBuscaD d.kv "Horas Semestre" ""))
      periodoLabel "DOCENTE EN COMISION" vinculacion dedicacion nivel))

/-- `_actividad_a_dict` (univalle_scraper.py 531-535) applied to an
`ActividadAsignatura`: its `__dict__`, whose keys are the lowercase dataclass
field names (the `periodo` int is rendered as text; no key here is consulted
by `generar_id_actividad`). -/
def actividad_a_dict (a : ActividadAsignatura) : AListStr :=
  [("codigo", a.codigo), ("nombre_asignatura", a.nombre_asignatura),
   ("grupo", a.grupo), ("tipo", a.tipo), ("horas_semestre", a.horas_semestre),
   ("cred", a.cred), ("porc", a.porc), ("frec", a.frec), ("inten", a.inten),
   ("periodo", toString a.periodo)]

/-! ## Write-once order on `InformacionPersonal` and concrete documents used
in the verification -/

/-- One field extends write-once: a non-empty old value is kept. -/
def ext1 (x y : String) : Prop := x ≠ "" → y = x

/-- `b` extends `a` without overwriting: every field of `a` that is already
non-empty is unchanged in `b`. -/
def Extiende (a b : InformacionPersonal) : Prop :=
  ext1 a.cedula b.cedula ∧ ext1 a.nombre b.nombre ∧ ext1 a.apellido1 b.apellido1 ∧
  ext1 a.apellido2 b.apellido2 ∧ ext1 a.unidad_academica b.unidad_academica ∧
  ext1 a.escuela b.escuela ∧ ext1 a.departamento b.departamento ∧
  ext1 a.vinculacion b.vinculacion ∧ ext1 a.categoria b.categoria ∧
  ext1 a.dedicacion b.dedicacion ∧ ext1 a.nivel_alcanzado b.nivel_alcanzado ∧
  ext1 a.cargo b.cargo ∧ ext1 a.centro_costo b.centro_costo

/-- A personal-info table carrying a cedula and a name (a concrete document
table used to exercise the pipeline). -/
def tablaPersonal (ced nom : String) : Tabla :=
  { texto := "CEDULA NOMBRE " ++ ced ++ " " ++ nom,
    filas := [["CEDULA", "NOMBRE"], [ced, nom], [], []] }

/-- A title-only section table announcing research activities. -/
def tablaTituloInv : Tabla :=
  { texto := "ACTIVIDADES DE INVESTIGACION",
    filas := [["ACTIVIDADES DE INVESTIGACION"]] }

/-- A table with no rows. -/
def tablaVacia : Tabla := { texto := "", filas := [] }

/-- A research data table. -/
def tablaInv : Tabla :=
  { texto := "CODIGO NOMBRE DEL PROYECTO APROBADO POR HORAS SEMESTRE P1 PROYECTO X CI 64.00",
    filas := [["CODIGO", "NOMBRE DEL PROYECTO", "APROBADO POR", "HORAS SEMESTRE"],
              ["P1", "PROYECTO X", "CI", "64.00"]] }

/-- A teaching table whose data row has the name cell `"12%"` and a code. -/
def tablaAsig12pct : Tabla :=
  { texto := "CODIGO NOMBRE DE ASIGNATURA HORAS SEMESTRE 745010C 12% 64.00",
    filas := [["CODIGO", "NOMBRE DE ASIGNATURA", "HORAS SEMESTRE"],
              ["745010C", "12%", "64.00"]] }

/-- A teaching table whose data row has the name cell `"12.5 10%"`. -/
def tablaAsigPctCola : Tabla :=
  { texto := "CODIGO NOMBRE DE ASIGNATURA HORAS SEMESTRE 12.5 10%",
    filas := [["CODIGO", "NOMBRE DE ASIGNATURA", "HORAS SEMESTRE"],
              ["", "12.5 10%", ""]] }

/-- A fully populated `InformacionPersonal`, used to witness preservation. -/
def infoLlena : InformacionPersonal :=
  { cedula := "C1", nombre := "N1", apellido1 := "A1", apellido2 := "A2",
    unidad_academica := "U1", escuela := "E1", departamento := "D1",
    vinculacion := "V1", categoria := "K1", dedicacion := "DE1",
    nivel_alcanzado := "NV1", cargo := "CG1", centro_costo := "CC1" }

/-! ## Helper lemmas -/

theorem valorDec_nonneg (ent frac : List Char) : 0 ≤ valorDec ent frac := by
  unfold valorDec
  positivity

theorem pyFloatDec_nonneg (s : String) (v : Rat) (h : pyFloatDec s = some v) : 0 ≤ v := by
  unfold pyFloatDec at h
  cases hp : pyFloatPartes s with
  | none => rw [hp] at h; exact absurd h (by simp)
  | some p =>
    rw [hp] at h
    simp only [Option.map_some', Option.some.injEq] at h
    exact h ▸ valorDec_nonneg p.1 p.2

theorem parsear_horas_nonneg (s : String) : 0 ≤ parsear_horas s := by
  unfold parsear_horas
  split
  · exact le_refl 0
  · cases h : pyFloatDec (limpiarHorasStr s) with
    | none => simp
    | some v => simpa using pyFloatDec_nonneg _ v h

theorem construir_nonneg (c np e d ta cat na nh p act vin ded niv : String) :
    0 ≤ (construir_actividad_dict c np e d ta cat na nh p act vin ded niv).numero_horas :=
  parsear_horas_nonneg nh

/-- C1: `univalle_scraper.py` imports `limpiar_escuela` from
`scraper.utils.helpers`, but helpers.py defines no such name, so resolving the
list of imports fails (it is the single unresolvable name), while
`_construir_actividad_dict` — the record-assembly path — invokes
`limpiar_escuela` for every record it builds; hence loading the engine module
fails and no record assembly can complete normally. -/
theorem c1_import_limpiar_escuela_falla :
    importUnivalleScraperOk = false ∧
    importesFaltantes = ["limpiar_escuela"] ∧
    "limpiar_escuela" ∈ univalleScraperHelperImports ∧
    "limpiar_escuela" ∈ construirActividadDictUsaHelpers ∧
    helpersDefinedNames.contains "limpiar_escuela" = false := by
  decide

/-- C7: the hours parser is total — for every string it returns the float of
the cleaned string (non-digit/dot/comma characters removed, comma normalized
to dot), and `0.0` when the input is empty or the cleaned string fails to
parse; the result is never negative and no exception escapes. -/
theorem c7_parsear_horas_total (s : String) :
    0 ≤ parsear_horas s ∧
    parsear_horas s = if s = "" then 0 else (pyFloatDec (limpiarHorasStr s)).getD 0 :=
  ⟨parsear_horas_nonneg s, rfl⟩

/-- C2: on the table with header row CODIGO / NOMBRE DE ASIGNATURA / HORAS
SEMESTRE and the single data row 745010C / FUNDAMENTOS DE BASES DE DATOS /
64.00, `_procesar_asignaturas` produces exactly one activity, classified
postgrado by the leading-digit-7 code rule, with that code and name and with
hours rendering to 64.0. -/
theorem c2_ejemplo_asignatura :
    procesar_asignaturas
        [["CODIGO", "NOMBRE DE ASIGNATURA", "HORAS SEMESTRE"],
         ["745010C", "FUNDAMENTOS DE BASES DE DATOS", "64.00"]]
        ["CODIGO", "NOMBRE DE ASIGNATURA", "HORAS SEMESTRE"] 7 =
      ([], [{ codigo := "745010C", nombre_asignatura := "FUNDAMENTOS DE BASES DE DATOS",
              grupo := "", tipo := "", horas_semestre := "64.0", cred := "", porc := "",
              frec := "", inten := "", periodo := 7 }]) ∧
    parsear_horas "64.0" = 64 ∧
    es_postgrado { codigo := "745010C",
                   nombre_asignatura := "FUNDAMENTOS DE BASES DE DATOS", periodo := 7 } = true := by
  refine ⟨by decide, ?_, by decide⟩
  have h2 : pyFloatPartes (limpiarHorasStr "64.0") = some (['6', '4'], ['0']) := by decide
  have h3 : natDeDigitos ['6', '4'] = 64 := by decide
  have h4 : natDeDigitos ['0'] = 0 := by decide
  simp only [parsear_horas, pyFloatDec, h2, Option.map_some', Option.getD_some,
    valorDec, h3, h4, if_neg (by decide : ¬("64.0" : String) = "")]
  norm_num

theorem palabrasAux_ws (wsl : List Char) (h : ∀ c ∈ wsl, c.isWhitespace = true) :
    ∀ acc, palabrasAux acc wsl = palabrasAux acc [] := by
  induction wsl with
  | nil => intro acc; rfl
  | cons c resto ih =>
    intro acc
    have hc : c.isWhitespace = true := h c (by simp)
    have hresto : ∀ x ∈ resto, x.isWhitespace = true := fun x hx => h x (by simp [hx])
    cases acc with
    | nil =>
      simp only [palabrasAux, hc, if_true, List.isEmpty_nil]
      exact ih hresto []
    | cons a as =>
      simp only [palabrasAux, hc, if_true, List.isEmpty_cons]
      rw [ih hresto []]
      rfl

theorem palabrasAux_append_ws (wsl : List Char) (h : ∀ c ∈ wsl, c.isWhitespace = true) :
    ∀ (l : List Char) (acc : List Char), palabrasAux acc (l ++ wsl) = palabrasAux acc l := by
  intro l
  induction l with
  | nil => intro acc; exact palabrasAux_ws wsl h acc
  | cons c resto ih =>
    intro acc
    by_cases hc : c.isWhitespace = true
    · cases acc with
      | nil =>
        simpa only [List.cons_append, palabrasAux, hc, if_true, List.isEmpty_nil,
          List.append_eq] using ih []
      | cons a as =>
        simp only [List.cons_append, palabrasAux, hc, if_true, List.isEmpty_cons,
          List.append_eq, Bool.false_eq_true, if_false]
        rw [ih []]
    · simp only [List.cons_append, palabrasAux, hc, if_false, Bool.false_eq_true,
        List.append_eq]
      rw [ih (c :: acc)]

theorem palabrasAux_dropWhile (l : List Char) :
    palabrasAux [] (l.dropWhile Char.isWhitespace) = palabrasAux [] l := by
  induction l with
  | nil => rfl
  | cons c resto ih =>
    by_cases hc : c.isWhitespace = true
    · rw [List.dropWhile_cons, if_pos hc, ih]
      simp only [palabrasAux, hc, if_true, List.isEmpty_nil]
    · rw [List.dropWhile_cons, if_neg hc]

theorem palabras_pyStrip (s : String) : palabras (pyStrip s) = palabras s := by
  show palabrasAux [] (recortaWs s.toList) = palabrasAux [] s.toList
  set m := s.toList.dropWhile Char.isWhitespace with hm
  have hdecomp :
      (m.reverse.dropWhile Char.isWhitespace).reverse
        ++ (m.reverse.takeWhile Char.isWhitespace).reverse = m := by
    rw [← List.reverse_append, List.takeWhile_append_dropWhile, List.reverse_reverse]
  have hws : ∀ c ∈ (m.reverse.takeWhile Char.isWhitespace).reverse, c.isWhitespace = true := by
    intro c hc
    rw [List.mem_reverse] at hc
    exact List.mem_takeWhile_imp hc
  have h1 : palabrasAux [] (recortaWs s.toList)
      = palabrasAux [] ((m.reverse.dropWhile Char.isWhitespace).reverse
          ++ (m.reverse.takeWhile Char.isWhitespace).reverse) :=
    (palabrasAux_append_ws _ hws _ []).symm
  rw [h1, hdecomp, hm]
  exact palabrasAux_dropWhile s.toList

/-- C10: for every non-empty combined UNIDAD ACADEMICA value the derivation
splits on whitespace, takes the first token as the department and joins the
remaining tokens minus the literals ESCUELA and DEPARTAMENTO into the school,
and on ESCUELA INGENIERIA DE SISTEMAS it yields department ESCUELA and school
INGENIERIA DE SISTEMAS. -/
theorem c10_escuela_departamento (ua : String) (h : ua ≠ "") :
    extraer_escuela_departamento ua = escuelaDeptSegunSpec ua ∧
    extraer_escuela_departamento "ESCUELA INGENIERIA DE SISTEMAS" =
      ("ESCUELA", "INGENIERIA DE SISTEMAS") := by
  refine ⟨?_, by decide⟩
  unfold extraer_escuela_departamento escuelaDeptSegunSpec
  rw [if_neg h, palabras_pyStrip]
  cases hp : palabras ua with
  | nil => rfl
  | cons p resto =>
    cases resto with
    | nil => rfl
    | cons q resto' => rfl

theorem c10_escuela_departamento_witness :
    extraer_escuela_departamento "ESCUELA INGENIERIA DE SISTEMAS" =
        escuelaDeptSegunSpec "ESCUELA INGENIERIA DE SISTEMAS" ∧
    extraer_escuela_departamento "ESCUELA INGENIERIA DE SISTEMAS" =
        ("ESCUELA", "INGENIERIA DE SISTEMAS") :=
  c10_escuela_departamento "ESCUELA INGENIERIA DE SISTEMAS" (by decide)

theorem match79_caracteriza (s : String) (hd : matchDigitos s = true) :
    match79 s = true ↔
      (∃ c, s.toList.head? = some c ∧ '7' ≤ c ∧ c ≤ '9') ∧ 3 ≤ s.length := by
  unfold matchDigitos at hd
  unfold match79
  have hlen : s.length = s.toList.length := rfl
  cases hs : s.toList with
  | nil => rw [hs] at hd; exact absurd hd (by decide)
  | cons c resto =>
    rw [hs] at hd
    simp only [List.isEmpty_cons, Bool.not_false, Bool.true_and, List.all_cons,
      Bool.and_eq_true] at hd
    rw [hlen, hs]
    simp only [List.head?_cons, Option.some.injEq, List.length_cons,
      Bool.and_eq_true, decide_eq_true_eq]
    constructor
    · rintro ⟨⟨hc, _⟩, _⟩
      exact ⟨⟨c, rfl, by simpa using hc⟩, by omega⟩
    · rintro ⟨⟨c', hc', h7, h9⟩, hl⟩
      subst hc'
      exact ⟨⟨⟨by simpa using h7, by simpa using h9⟩, by omega⟩, hd.2⟩

theorem match15_caracteriza (s : String) (hd : matchDigitos s = true) :
    match15 s = true ↔
      (∃ c, s.toList.head? = some c ∧ '1' ≤ c ∧ c ≤ '5') ∧ 4 ≤ s.length := by
  unfold matchDigitos at hd
  unfold match15
  have hlen : s.length = s.toList.length := rfl
  cases hs : s.toList with
  | nil => rw [hs] at hd; exact absurd hd (by decide)
  | cons c resto =>
    rw [hs] at hd
    simp only [List.isEmpty_cons, Bool.not_false, Bool.true_and, List.all_cons,
      Bool.and_eq_true] at hd
    rw [hlen, hs]
    simp only [List.head?_cons, Option.some.injEq, List.length_cons,
      Bool.and_eq_true, decide_eq_true_eq]
    constructor
    · rintro ⟨⟨hc, _⟩, _⟩
      exact ⟨⟨c, rfl, by simpa using hc⟩, by omega⟩
    · rintro ⟨⟨c', hc', h1, h5⟩, hl⟩
      subst hc'
      exact ⟨⟨⟨by simpa using h1, by simpa using h5⟩, by omega⟩, hd.2⟩

/-- C3: for activities without forced section context, the code's track
classifier agrees everywhere with the spec's priority scheme — graduate
keyword ⇒ postgrado, else undergraduate keyword ⇒ pregrado, else the
digit-prefix heuristic on the letter-stripped code (7-9 with at least 3
digits ⇒ postgrado, 1-5 with at least 4 digits ⇒ pregrado, default
pregrado) — and keyword evidence outranks the numeric heuristic: an
undergraduate keyword forces pregrado whatever the code digits. -/
theorem c3_track_equivale_spec (a : ActividadAsignatura) :
    es_postgrado a = (trackSegunSpec a == "postgrado") ∧
    (hayKeywordPregrado a = true → hayKeywordPostgrado a = false →
      es_postgrado a = false) := by
  constructor
  · unfold es_postgrado trackSegunSpec
    by_cases hP : hayKeywordPostgrado a = true
    · simp [hP]
    · rw [Bool.not_eq_true] at hP
      by_cases hQ : hayKeywordPregrado a = true
      · simp only [hP, hQ, Bool.false_eq_true, if_false, if_true]
        decide
      · rw [Bool.not_eq_true] at hQ
        simp only [hP, hQ, Bool.false_eq_true, if_false]
        by_cases hD : matchDigitos (quitaLetras a.codigo) = true
        · have hne : quitaLetras a.codigo ≠ "" := by
            intro h0
            rw [h0] at hD
            exact absurd hD (by decide)
          rw [if_pos ⟨hne, hD⟩]
          by_cases h79 : match79 (quitaLetras a.codigo) = true
          · obtain ⟨hc, hl⟩ := (match79_caracteriza _ hD).mp h79
            rw [if_pos h79, if_pos ⟨hD, hc, hl⟩]
            decide
          · rw [if_neg h79]
            have hC' : ¬(matchDigitos (quitaLetras a.codigo) = true ∧
                (∃ c, (quitaLetras a.codigo).toList.head? = some c ∧ '7' ≤ c ∧ c ≤ '9') ∧
                3 ≤ (quitaLetras a.codigo).length) := by
              rintro ⟨_, hc, hl⟩
              exact h79 ((match79_caracteriza _ hD).mpr ⟨hc, hl⟩)
            rw [if_neg hC']
            by_cases h15 : match15 (quitaLetras a.codigo) = true
            · obtain ⟨hc, hl⟩ := (match15_caracteriza _ hD).mp h15
              rw [if_pos h15, if_pos ⟨hD, hc, hl⟩]
              decide
            · rw [if_neg h15]
              have hC'' : ¬(matchDigitos (quitaLetras a.codigo) = true ∧
                  (∃ c, (quitaLetras a.codigo).toList.head? = some c ∧ '1' ≤ c ∧ c ≤ '5') ∧
                  4 ≤ (quitaLetras a.codigo).length) := by
                rintro ⟨_, hc, hl⟩
                exact h15 ((match15_caracteriza _ hD).mpr ⟨hc, hl⟩)
              rw [if_neg hC'']
              decide
        · have hC : ¬(quitaLetras a.codigo ≠ "" ∧ matchDigitos (quitaLetras a.codigo) = true) := by
            rintro ⟨_, h⟩
            exact hD h
          rw [if_neg hC]
          have hC' : ¬(matchDigitos (quitaLetras a.codigo) = true ∧
              (∃ c, (quitaLetras a.codigo).toList.head? = some c ∧ '7' ≤ c ∧ c ≤ '9') ∧
              3 ≤ (quitaLetras a.codigo).length) := by
            rintro ⟨h, _⟩
            exact hD h
          have hC'' : ¬(matchDigitos (quitaLetras a.codigo) = true ∧
              (∃ c, (quitaLetras a.codigo).toList.head? = some c ∧ '1' ≤ c ∧ c ≤ '5') ∧
              4 ≤ (quitaLetras a.codigo).length) := by
            rintro ⟨h, _⟩
            exact hD h
          rw [if_neg hC', if_neg hC'']
          decide
  · intro h1 h2
    unfold es_postgrado
    simp [h1, h2]

theorem c3_track_equivale_spec_witness :
    es_postgrado { codigo := "745010C", nombre_asignatura := "INGENIERIA DE SISTEMAS",
                   periodo := 7 } =
      (trackSegunSpec { codigo := "745010C", nombre_asignatura := "INGENIERIA DE SISTEMAS",
                        periodo := 7 } == "postgrado") ∧
    es_postgrado { codigo := "745010C", nombre_asignatura := "INGENIERIA DE SISTEMAS",
                   periodo := 7 } = false :=
  ⟨(c3_track_equivale_spec _).1,
   (c3_track_equivale_spec
      { codigo := "745010C", nombre_asignatura := "INGENIERIA DE SISTEMAS", periodo := 7 }).2
     (by decide) (by decide)⟩

/-! ## Deduplication lemmas (C4) -/

theorem dedupAux_sublist (l : List AListStr) :
    ∀ vistos, List.Sublist (dedupAux vistos l) l := by
  induction l with
  | nil => intro vistos; simp [dedupAux]
  | cons a resto ih =>
    intro vistos
    unfold dedupAux
    split
    · exact (ih vistos).cons₂ a
    · split
      · exact (ih vistos).cons a
      · exact (ih _).cons₂ a

theorem dedupAux_countP_visto (l : List AListStr) (k : String)
    (hk : ¬(k = "|||" ∨ k = "")) :
    ∀ vistos, k ∈ vistos →
      (dedupAux vistos l).countP (fun d => generar_id_actividad d == k) = 0 := by
  induction l with
  | nil => intro vistos _; simp [dedupAux]
  | cons a resto ih =>
    intro vistos hv
    unfold dedupAux
    split
    · rename_i hid
      rw [List.countP_cons]
      have hne : (generar_id_actividad a == k) = false := by
        simp only [beq_eq_false_iff_ne, ne_eq]
        intro h
        exact hk (h ▸ hid)
      simp [hne, ih vistos hv]
    · split
      · exact ih vistos hv
      · rename_i hid hnv
        rw [List.countP_cons]
        have hne : (generar_id_actividad a == k) = false := by
          simp only [beq_eq_false_iff_ne, ne_eq]
          intro h
          exact hnv (h ▸ hv)
        simp [hne, ih _ (List.mem_cons_of_mem _ hv)]

theorem dedupAux_countP_le (l : List AListStr) (k : String)
    (hk : ¬(k = "|||" ∨ k = "")) :
    ∀ vistos, (dedupAux vistos l).countP (fun d => generar_id_actividad d == k) ≤ 1 := by
  induction l with
  | nil => intro vistos; simp [dedupAux]
  | cons a resto ih =>
    intro vistos
    unfold dedupAux
    split
    · rename_i hid
      rw [List.countP_cons]
      have hne : (generar_id_actividad a == k) = false := by
        simp only [beq_eq_false_iff_ne, ne_eq]
        intro h
        exact hk (h ▸ hid)
      simpa [hne] using ih vistos
    · split
      · exact ih vistos
      · rw [List.countP_cons]
        by_cases hak : generar_id_actividad a = k
        · have h0 := dedupAux_countP_visto resto k hk (generar_id_actividad a :: vistos)
            (by simp [hak])
          rw [h0]
          simp [hak]
        · simpa [hak] using ih (generar_id_actividad a :: vistos)

theorem dedupAux_countP_bypass (l : List AListStr) :
    ∀ vistos, (dedupAux vistos l).countP (fun d => generar_id_actividad d == "|||") =
      l.countP (fun d => generar_id_actividad d == "|||") := by
  induction l with
  | nil => intro vistos; simp [dedupAux]
  | cons a resto ih =>
    intro vistos
    unfold dedupAux
    split
    · rw [List.countP_cons, List.countP_cons, ih vistos]
    · split
      · rename_i hid hv
        have hne : (generar_id_actividad a == "|||") = false := by
          simp only [beq_eq_false_iff_ne, ne_eq]
          intro h
          exact hid (Or.inl h)
        rw [List.countP_cons, ih vistos, hne]
        simp
      · rw [List.countP_cons, List.countP_cons, ih _]

theorem dedupAux_find (l : List AListStr) (k : String) :
    ∀ vistos, k ∉ vistos →
      (dedupAux vistos l).find? (fun d => generar_id_actividad d == k) =
        l.find? (fun d => generar_id_actividad d == k) := by
  induction l with
  | nil => intro vistos _; simp [dedupAux]
  | cons a resto ih =>
    intro vistos hv
    unfold dedupAux
    by_cases hak : generar_id_actividad a = k
    · have hb : (generar_id_actividad a == k) = true := by simp [hak]
      split
      · simp [List.find?_cons, hb]
      · split
        · rename_i hin
          exact absurd (hak ▸ hin) hv
        · simp [List.find?_cons, hb]
    · have hb : (generar_id_actividad a == k) = false := by simp [hak]
      split
      · simp only [List.find?_cons, hb]
        exact ih vistos hv
      · split
        · simp only [List.find?_cons, hb]
          exact ih vistos hv
        · simp only [List.find?_cons, hb]
          refine ih _ ?_
          simp only [List.mem_cons, not_or]
          exact ⟨fun h => hak h.symm, hv⟩

theorem generar_id_actividad_a_dict (a : ActividadAsignatura) :
    generar_id_actividad (actividad_a_dict a) = "|||" := rfl

theorem dedupAux_dataclass_noop (vistos : List String) (l : List ActividadAsignatura) :
    dedupAux vistos (l.map actividad_a_dict) = l.map actividad_a_dict := by
  induction l with
  | nil => simp [dedupAux]
  | cons a resto ih =>
    simp only [List.map_cons]
    unfold dedupAux
    rw [if_pos (Or.inl (generar_id_actividad_a_dict a))]
    rw [ih]

/-- C4 counterexample: two identical teaching records with a non-empty code
both survive deduplication as wired in `procesar_docente` (their `__dict__`
keys are lowercase, so the id is the degenerate `'|||'`), refuting "at most
one record survives among those sharing the same key"; and two records whose
code and name are empty but whose group and type are not do get deduplicated,
refuting "records with empty code and name bypass deduplication". -/
theorem c4_dedup_counterexample :
    deduplicar_actividades
        [actividad_a_dict { codigo := "745010C", nombre_asignatura := "BASES DE DATOS",
                            grupo := "01", tipo := "TEORIA", periodo := 7 },
         actividad_a_dict { codigo := "745010C", nombre_asignatura := "BASES DE DATOS",
                            grupo := "01", tipo := "TEORIA", periodo := 7 }] =
      [actividad_a_dict { codigo := "745010C", nombre_asignatura := "BASES DE DATOS",
                          grupo := "01", tipo := "TEORIA", periodo := 7 },
       actividad_a_dict { codigo := "745010C", nombre_asignatura := "BASES DE DATOS",
                          grupo := "01", tipo := "TEORIA", periodo := 7 }] ∧
    deduplicar_actividades
        [[("CODIGO", ""), ("NOMBRE DE ASIGNATURA", ""), ("GRUPO", "G"), ("TIPO", "T")],
         [("CODIGO", ""), ("NOMBRE DE ASIGNATURA", ""), ("GRUPO", "G"), ("TIPO", "T")]] =
      [[("CODIGO", ""), ("NOMBRE DE ASIGNATURA", ""), ("GRUPO", "G"), ("TIPO", "T")]] := by
  constructor
  · exact dedupAux_dataclass_noop []
      [{ codigo := "745010C", nombre_asignatura := "BASES DE DATOS",
         grupo := "01", tipo := "TEORIA", periodo := 7 },
       { codigo := "745010C", nombre_asignatura := "BASES DE DATOS",
         grupo := "01", tipo := "TEORIA", periodo := 7 }]
  · decide

/-- C4 amended: deduplication keys records by the dict entries CODIGO /
NOMBRE DE ASIGNATURA / GRUPO / TIPO; teaching records reach it through
`__dict__`, whose lowercase keys make every id the degenerate `'|||'`, so all
of them bypass deduplication and survive in order.  For dicts that do carry
the uppercase keys: survivors form a sublist of the input (document order
preserved), at most one record survives per non-degenerate id, records with
the degenerate id `'|||'` (code, name, group and type all empty) all survive,
and for every id the surviving record is the first occurrence. -/
theorem c4_dedup_amended :
    (∀ l : List ActividadAsignatura,
        deduplicar_actividades (l.map actividad_a_dict) = l.map actividad_a_dict) ∧
    (∀ l : List AListStr,
        List.Sublist (deduplicar_actividades l) l ∧
        (∀ k, ¬(k = "|||" ∨ k = "") →
          (deduplicar_actividades l).countP (fun d => generar_id_actividad d == k) ≤ 1) ∧
        (deduplicar_actividades l).countP (fun d => generar_id_actividad d == "|||") =
          l.countP (fun d => generar_id_actividad d == "|||") ∧
        (∀ k, (deduplicar_actividades l).find? (fun d => generar_id_actividad d == k) =
          l.find? (fun d => generar_id_actividad d == k))) := by
  constructor
  · exact fun l => dedupAux_dataclass_noop [] l
  · intro l
    refine ⟨dedupAux_sublist l [], fun k hk => dedupAux_countP_le l k hk [],
      dedupAux_countP_bypass l [], fun k => dedupAux_find l k [] (by simp)⟩

theorem c4_dedup_amended_witness :
    deduplicar_actividades
        ([{ codigo := "745010C", periodo := 7 },
          { codigo := "745010C", periodo := 7 }].map actividad_a_dict) =
      [{ codigo := "745010C", periodo := 7 },
       { codigo := "745010C", periodo := 7 }].map actividad_a_dict ∧
    (deduplicar_actividades
        [[("CODIGO", "A"), ("NOMBRE DE ASIGNATURA", "N"), ("GRUPO", "G"), ("TIPO", "T")],
         [("CODIGO", "A"), ("NOMBRE DE ASIGNATURA", "N"), ("GRUPO", "G"), ("TIPO", "T")]]).countP
      (fun d => generar_id_actividad d == "a|n|g|t") ≤ 1 :=
  ⟨c4_dedup_amended.1 _,
   (c4_dedup_amended.2 _).2.1 "a|n|g|t" (by decide)⟩

/-- C5: with a pending section, every intervening table that is neither a
title table nor has rows leaves the pending section untouched, and the first
subsequent data table (rows present, not a title table) is processed by the
forced extractor of that section — never by the ordinary classifier — after
which the pending section is cleared (whatever number of records the table
yielded). -/
theorem c5_contexto_consumido (idp : Int) (s : String) (hs : s ≠ "")
    (res : DatosDocente) (M : List Tabla) (t : Tabla)
    (hM : ∀ u ∈ M, detectar_seccion_titulo u = none ∧ u.filas = [])
    (ht1 : detectar_seccion_titulo t = none) (ht2 : t.filas ≠ []) :
    List.foldl (pasoTabla idp) (some s, res) (M ++ [t]) =
      (none, procesar_tabla_con_contexto t t.filas (t.filas.headD []) idp s res) := by
  induction M with
  | nil =>
    simp only [List.nil_append, List.foldl_cons, List.foldl_nil]
    unfold pasoTabla
    rw [ht1]
    have hne : t.filas.isEmpty = false := by
      cases hf : t.filas with
      | nil => exact absurd hf ht2
      | cons a l => rfl
    simp only [hne, Bool.false_eq_true, if_false]
    have hp : seccionPendiente (some s, res).1 = true := by
      simp [seccionPendiente, hs]
    rw [if_pos hp]
    rfl
  | cons u M ih =>
    have hu := hM u (by simp)
    have hM' : ∀ v ∈ M, detectar_seccion_titulo v = none ∧ v.filas = [] :=
      fun v hv => hM v (by simp [hv])
    simp only [List.cons_append, List.foldl_cons]
    have hpaso : pasoTabla idp (some s, res) u = (some s, res) := by
      unfold pasoTabla
      rw [hu.1]
      simp [hu.2]
    rw [hpaso]
    exact ih hM'

theorem c5_contexto_consumido_witness :
    List.foldl (pasoTabla 7) (some "INVESTIGACION", { periodo := 7 }) [tablaVacia, tablaInv] =
      (none, procesar_tabla_con_contexto tablaInv tablaInv.filas (tablaInv.filas.headD [])
        7 "INVESTIGACION" { periodo := 7 }) :=
  c5_contexto_consumido 7 "INVESTIGACION" (by decide) { periodo := 7 } [tablaVacia] tablaInv
    (by decide) (by decide) (by decide)

theorem mejorCandidatoNombre_inv (celdas : List String) :
    ∀ m, (m = "" ∨ matchNumPct m = false) →
      (mejorCandidatoNombre m celdas = "" ∨ matchNumPct (mejorCandidatoNombre m celdas) = false) := by
  induction celdas with
  | nil => intro m hm; exact hm
  | cons celda resto ih =>
    intro m hm
    unfold mejorCandidatoNombre
    by_cases h1 : pyStrip celda = ""
    · simp only [h1, if_pos rfl]
      exact ih m hm
    · rw [if_neg h1]
      by_cases h2 : matchNumPct (pyStrip celda) = true
      · rw [if_pos h2]
        exact ih m hm
      · rw [if_neg h2]
        split
        · exact ih m hm
        · split
          · exact ih m hm
          · split
            · exact ih (pyStrip celda) (Or.inr (Bool.not_eq_true _ ▸ h2))
            · exact ih m hm

theorem porIndiceNombre_inv (celdas : List String) (i : Int) :
    porIndiceNombre celdas i = "" ∨ matchNumPct (porIndiceNombre celdas i) = false := by
  unfold porIndiceNombre
  split
  · dsimp only
    split
    · rename_i hv
      exact Or.inr (by simpa using hv.2)
    · exact Or.inl rfl
  · exact Or.inl rfl

theorem extraer_nombre_docencia_sin_numero (headers celdas : List String) :
    extraer_nombre_actividad_docencia headers celdas = "" ∨
      matchNumPct (extraer_nombre_actividad_docencia headers celdas) = false := by
  unfold extraer_nombre_actividad_docencia
  by_cases h : porIndiceNombre celdas (indiceNombreDocencia headers) = ""
  · rw [if_neg (by simpa using h)]
    exact mejorCandidatoNombre_inv celdas "" (Or.inl rfl)
  · rw [if_pos h]
    rcases porIndiceNombre_inv celdas (indiceNombreDocencia headers) with h0 | h0
    · exact absurd h0 h
    · exact Or.inr h0

/-- C8 counterexample: a teaching data row whose name cell is exactly `"12%"`
but whose code cell is non-empty yields a record that survives into the
output (with an empty name), so the row is not dropped. -/
theorem c8_nombre_pct_counterexample :
    (extraer_actividades_desde_html [tablaAsig12pct] "" "123" 7 "2026-1").map
        (fun r => (r.tipo_actividad, r.categoria, r.nombre_actividad)) =
      [("Docencia", "Postgrado", "")] ∧
    (tablaAsig12pct.filas.getD 1 []).getD 1 "" = "12%" := by
  constructor <;> decide

/-- C8 amended: a name cell equal to `"12%"` is always rejected by the
numeric/percent check (the docencia name extractor never returns it), so the
record keeps an empty name; the record is dropped only when no code was
extracted either — a row carrying only the `"12%"` cell produces nothing,
while the same name cell next to a code keeps a record with an empty name. -/
theorem c8_nombre_pct_amended :
    (∀ headers celdas,
        (extraer_nombre_actividad_docencia headers celdas == "12%") = false) ∧
    procesar_asignaturas [["NOMBRE DE ASIGNATURA"], ["12%"]] ["NOMBRE DE ASIGNATURA"] 7 =
      ([], []) ∧
    (procesar_asignaturas
        [["CODIGO", "NOMBRE DE ASIGNATURA", "HORAS SEMESTRE"], ["745010C", "12%", "64.00"]]
        ["CODIGO", "NOMBRE DE ASIGNATURA", "HORAS SEMESTRE"] 7).2.map
      (fun a => (a.codigo, a.nombre_asignatura)) = [("745010C", "")] := by
  refine ⟨?_, by decide, by decide⟩
  intro headers celdas
  rw [beq_eq_false_iff_ne]
  intro h12
  rcases extraer_nombre_docencia_sin_numero headers celdas with h | h <;>
    rw [h12] at h <;> exact absurd h (by decide)

/-- C9 counterexample: the name cell `"12.5 10%"` passes the extractor (it is
not a bare number/percent), but the trailing-percent cleanup reduces it to
`"12.5"`, so the output teaching record's nombre_actividad does match
`^\d+\.?\d*%?$`. -/
theorem c9_nombre_numerico_counterexample :
    (extraer_actividades_desde_html [tablaAsigPctCola] "" "123" 7 "2026-1").map
        (fun r => r.nombre_actividad) = ["12.5"] ∧
    matchNumPct "12.5" = true := by
  constructor <;> decide

/-- C9 amended: every record of the output has numero_horas at least 0, and
the docencia name extractor itself never returns a bare number/percent (the
violation of the original claim arises only from the later trailing-percent
cleanup, as the counterexample shows). -/
theorem c9_horas_nombre_amended (tablas : List Tabla) (html ced lbl : String) (idp : Int) :
    (∀ r ∈ extraer_actividades_desde_html tablas html ced idp lbl, 0 ≤ r.numero_horas) ∧
    (∀ headers celdas,
        matchNumPct (extraer_nombre_actividad_docencia headers celdas) = false ∨
        extraer_nombre_actividad_docencia headers celdas = "") := by
  constructor
  · intro r hr
    unfold extraer_actividades_desde_html at hr
    simp only [List.mem_append, List.mem_map] at hr
    rcases hr with ((((((((h | h) | h) | h) | h) | h) | h) | h) | h) <;>
      (obtain ⟨a, -, rfl⟩ := h; exact construir_nonneg _ _ _ _ _ _ _ _ _ _ _ _ _)
  · intro headers celdas
    rcases extraer_nombre_docencia_sin_numero headers celdas with h | h
    · exact Or.inr h
    · exact Or.inl h

theorem c9_horas_nombre_amended_witness :
    0 ≤ ((extraer_actividades_desde_html [tablaAsig12pct] "" "123" 7 "2026-1").headD
      (construir_actividad_dict "" "" "" "" "" "" "" "" "" "" "" "" "")).numero_horas := by
  cases hcase : extraer_actividades_desde_html [tablaAsig12pct] "" "123" 7 "2026-1" with
  | nil =>
    have hlen : (extraer_actividades_desde_html [tablaAsig12pct] "" "123" 7 "2026-1").length
        = 1 := by decide
    rw [hcase] at hlen
    exact absurd hlen (by decide)
  | cons a l' =>
    have hmem : a ∈ extraer_actividades_desde_html [tablaAsig12pct] "" "123" 7 "2026-1" := by
      rw [hcase]
      exact List.mem_cons_self a l'
    have h := (c9_horas_nombre_amended [tablaAsig12pct] "" "123" "2026-1" 7).1 a hmem
    simpa using h

/-! ## Write-once lemmas (C6) -/

theorem extiende_refl (a : InformacionPersonal) : Extiende a a :=
  ⟨fun _ => rfl, fun _ => rfl, fun _ => rfl, fun _ => rfl, fun _ => rfl, fun _ => rfl,
   fun _ => rfl, fun _ => rfl, fun _ => rfl, fun _ => rfl, fun _ => rfl, fun _ => rfl,
   fun _ => rfl⟩

theorem ext1_trans {x y z : String} (h1 : ext1 x y) (h2 : ext1 y z) : ext1 x z := by
  intro hx
  rw [h2 (h1 hx ▸ hx), h1 hx]

theorem extiende_trans {a b c : InformacionPersonal}
    (h1 : Extiende a b) (h2 : Extiende b c) : Extiende a c :=
  ⟨ext1_trans h1.1 h2.1, ext1_trans h1.2.1 h2.2.1, ext1_trans h1.2.2.1 h2.2.2.1,
   ext1_trans h1.2.2.2.1 h2.2.2.2.1, ext1_trans h1.2.2.2.2.1 h2.2.2.2.2.1,
   ext1_trans h1.2.2.2.2.2.1 h2.2.2.2.2.2.1, ext1_trans h1.2.2.2.2.2.2.1 h2.2.2.2.2.2.2.1,
   ext1_trans h1.2.2.2.2.2.2.2.1 h2.2.2.2.2.2.2.2.1,
   ext1_trans h1.2.2.2.2.2.2.2.2.1 h2.2.2.2.2.2.2.2.2.1,
   ext1_trans h1.2.2.2.2.2.2.2.2.2.1 h2.2.2.2.2.2.2.2.2.2.1,
   ext1_trans h1.2.2.2.2.2.2.2.2.2.2.1 h2.2.2.2.2.2.2.2.2.2.2.1,
   ext1_trans h1.2.2.2.2.2.2.2.2.2.2.2.1 h2.2.2.2.2.2.2.2.2.2.2.2.1,
   ext1_trans h1.2.2.2.2.2.2.2.2.2.2.2.2 h2.2.2.2.2.2.2.2.2.2.2.2.2⟩

theorem extiende_foldl {α : Type} (f : InformacionPersonal → α → InformacionPersonal)
    (hf : ∀ i x, Extiende i (f i x)) :
    ∀ (l : List α) (i : InformacionPersonal), Extiende i (List.foldl f i l) := by
  intro l
  induction l with
  | nil => intro i; exact extiende_refl i
  | cons x l ih =>
    intro i
    rw [List.foldl_cons]
    exact extiende_trans (hf i x) (ih (f i x))

theorem extiende_set_cedula (i : InformacionPersonal) (v : String) (h : i.cedula = "") :
    Extiende i { i with cedula := v } :=
  ⟨fun hne => absurd h hne, fun _ => rfl, fun _ => rfl, fun _ => rfl, fun _ => rfl, fun _ => rfl, fun _ => rfl, fun _ => rfl, fun _ => rfl, fun _ => rfl, fun _ => rfl, fun _ => rfl, fun _ => rfl⟩

theorem extiende_set_nombre (i : InformacionPersonal) (v : String) (h : i.nombre = "") :
    Extiende i { i with nombre := v } :=
  ⟨fun _ => rfl, fun hne => absurd h hne, fun _ => rfl, fun _ => rfl, fun _ => rfl, fun _ => rfl, fun _ => rfl, fun _ => rfl, fun _ => rfl, fun _ => rfl, fun _ => rfl, fun _ => rfl, fun _ => rfl⟩

theorem extiende_set_apellido1 (i : InformacionPersonal) (v : String) (h : i.apellido1 = "") :
    Extiende i { i with apellido1 := v } :=
  ⟨fun _ => rfl, fun _ => rfl, fun hne => absurd h hne, fun _ => rfl, fun _ => rfl, fun _ => rfl, fun _ => rfl, fun _ => rfl, fun _ => rfl, fun _ => rfl, fun _ => rfl, fun _ => rfl, fun _ => rfl⟩

theorem extiende_set_apellido2 (i : InformacionPersonal) (v : String) (h : i.apellido2 = "") :
    Extiende i { i with apellido2 := v } :=
  ⟨fun _ => rfl, fun _ => rfl, fun _ => rfl, fun hne => absurd h hne, fun _ => rfl, fun _ => rfl, fun _ => rfl, fun _ => rfl, fun _ => rfl, fun _ => rfl, fun _ => rfl, fun _ => rfl, fun _ => rfl⟩

theorem extiende_set_unidad_academica (i : InformacionPersonal) (v : String) (h : i.unidad_academica = "") :
    Extiende i { i with unidad_academica := v } :=
  ⟨fun _ => rfl, fun _ => rfl, fun _ => rfl, fun _ => rfl, fun hne => absurd h hne, fun _ => rfl, fun _ => rfl, fun _ => rfl, fun _ => rfl, fun _ => rfl, fun _ => rfl, fun _ => rfl, fun _ => rfl⟩

theorem extiende_set_escuela (i : InformacionPersonal) (v : String) (h : i.escuela = "") :
    Extiende i { i with escuela := v } :=
  ⟨fun _ => rfl, fun _ => rfl, fun _ => rfl, fun _ => rfl, fun _ => rfl, fun hne => absurd h hne, fun _ => rfl, fun _ => rfl, fun _ => rfl, fun _ => rfl, fun _ => rfl, fun _ => rfl, fun _ => rfl⟩

theorem extiende_set_departamento (i : InformacionPersonal) (v : String) (h : i.departamento = "") :
    Extiende i { i with departamento := v } :=
  ⟨fun _ => rfl, fun _ => rfl, fun _ => rfl, fun _ => rfl, fun _ => rfl, fun _ => rfl, fun hne => absurd h hne, fun _ => rfl, fun _ => rfl, fun _ => rfl, fun _ => rfl, fun _ => rfl, fun _ => rfl⟩

theorem extiende_set_vinculacion (i : InformacionPersonal) (v : String) (h : i.vinculacion = "") :
    Extiende i { i with vinculacion := v } :=
  ⟨fun _ => rfl, fun _ => rfl, fun _ => rfl, fun _ => rfl, fun _ => rfl, fun _ => rfl, fun _ => rfl, fun hne => absurd h hne, fun _ => rfl, fun _ => rfl, fun _ => rfl, fun _ => rfl, fun _ => rfl⟩

theorem extiende_set_categoria (i : InformacionPersonal) (v : String) (h : i.categoria = "") :
    Extiende i { i with categoria := v } :=
  ⟨fun _ => rfl, fun _ => rfl, fun _ => rfl, fun _ => rfl, fun _ => rfl, fun _ => rfl, fun _ => rfl, fun _ => rfl, fun hne => absurd h hne, fun _ => rfl, fun _ => rfl, fun _ => rfl, fun _ => rfl⟩

theorem extiende_set_dedicacion (i : InformacionPersonal) (v : String) (h : i.dedicacion = "") :
    Extiende i { i with dedicacion := v } :=
  ⟨fun _ => rfl, fun _ => rfl, fun _ => rfl, fun _ => rfl, fun _ => rfl, fun _ => rfl, fun _ => rfl, fun _ => rfl, fun _ => rfl, fun hne => absurd h hne, fun _ => rfl, fun _ => rfl, fun _ => rfl⟩

theorem extiende_set_nivel_alcanzado (i : InformacionPersonal) (v : String) (h : i.nivel_alcanzado = "") :
    Extiende i { i with nivel_alcanzado := v } :=
  ⟨fun _ => rfl, fun _ => rfl, fun _ => rfl, fun _ => rfl, fun _ => rfl, fun _ => rfl, fun _ => rfl, fun _ => rfl, fun _ => rfl, fun _ => rfl, fun hne => absurd h hne, fun _ => rfl, fun _ => rfl⟩

theorem extiende_set_cargo (i : InformacionPersonal) (v : String) (h : i.cargo = "") :
    Extiende i { i with cargo := v } :=
  ⟨fun _ => rfl, fun _ => rfl, fun _ => rfl, fun _ => rfl, fun _ => rfl, fun _ => rfl, fun _ => rfl, fun _ => rfl, fun _ => rfl, fun _ => rfl, fun _ => rfl, fun hne => absurd h hne, fun _ => rfl⟩

theorem extiende_set_centro_costo (i : InformacionPersonal) (v : String) (h : i.centro_costo = "") :
    Extiende i { i with centro_costo := v } :=
  ⟨fun _ => rfl, fun _ => rfl, fun _ => rfl, fun _ => rfl, fun _ => rfl, fun _ => rfl, fun _ => rfl, fun _ => rfl, fun _ => rfl, fun _ => rfl, fun _ => rfl, fun _ => rfl, fun hne => absurd h hne⟩

theorem soupFila1Paso_extiende (vs : List String) (i : InformacionPersonal)
    (x : Nat × String) : Extiende i (soupFila1Paso vs i x) := by
  unfold soupFila1Paso
  by_cases h0 : (if x.1 < vs.length then vs.getD x.1 "" else "") = ""
  · rw [if_pos h0]
    exact extiende_refl _
  · rw [if_neg h0]
    by_cases hc8 : (strContains x.2 "CEDULA" || strContains x.2 "DOCUMENTO") = true
    · rw [if_pos hc8]
      by_cases hg8 : (i.cedula == "" && pyEsDigitos (if x.1 < vs.length then vs.getD x.1 "" else "")) = true
      · rw [if_pos hg8]
        refine extiende_set_cedula _ _ ?_
        simp only [Bool.and_eq_true, beq_iff_eq] at hg8
        first
          | exact hg8.1
          | exact hg8
      · rw [if_neg hg8]
        exact extiende_refl _
    · rw [if_neg hc8]
      by_cases hc7 : (strContains x.2 "1 APELLIDO" || x.2 == "APELLIDO1") = true
      · rw [if_pos hc7]
        by_cases hg7 : (i.apellido1 == "") = true
        · rw [if_pos hg7]
          refine extiende_set_apellido1 _ _ ?_
          simp only [Bool.and_eq_true, beq_iff_eq] at hg7
          first
            | exact hg7.1
            | exact hg7
        · rw [if_neg hg7]
          exact extiende_refl _
      · rw [if_neg hc7]
        by_cases hc6 : (strContains x.2 "2 APELLIDO" || x.2 == "APELLIDO2") = true
        · rw [if_pos hc6]
          by_cases hg6 : (i.apellido2 == "") = true
          · rw [if_pos hg6]
            refine extiende_set_apellido2 _ _ ?_
            simp only [Bool.and_eq_true, beq_iff_eq] at hg6
            first
              | exact hg6.1
              | exact hg6
          · rw [if_neg hg6]
            exact extiende_refl _
        · rw [if_neg hc6]
          by_cases hc5 : (x.2 == "NOMBRE") = true
          · rw [if_pos hc5]
            by_cases hg5 : (i.nombre == "" && pyEsAlpha (if x.1 < vs.length then vs.getD x.1 "" else "")) = true
            · rw [if_pos hg5]
              refine extiende_set_nombre _ _ ?_
              simp only [Bool.and_eq_true, beq_iff_eq] at hg5
              first
                | exact hg5.1
                | exact hg5
            · rw [if_neg hg5]
              exact extiende_refl _
          · rw [if_neg hc5]
            by_cases hc4 : (strContains x.2 "UNIDAD" && strContains x.2 "ACADEMICA") = true
            · rw [if_pos hc4]
              by_cases hg4 : (i.unidad_academica == "") = true
              · rw [if_pos hg4]
                refine extiende_set_unidad_academica _ _ ?_
                simp only [Bool.and_eq_true, beq_iff_eq] at hg4
                first
                  | exact hg4.1
                  | exact hg4
              · rw [if_neg hg4]
                exact extiende_refl _
            · rw [if_neg hc4]
              by_cases hc3 : (strContains x.2 "ESCUELA") = true
              · rw [if_pos hc3]
                by_cases hg3 : (i.escuela == "") = true
                · rw [if_pos hg3]
                  refine extiende_set_escuela _ _ ?_
                  simp only [Bool.and_eq_true, beq_iff_eq] at hg3
                  first
                    | exact hg3.1
                    | exact hg3
                · rw [if_neg hg3]
                  exact extiende_refl _
              · rw [if_neg hc3]
                by_cases hc2 : (strContains x.2 "DEPARTAMENTO" || strContains x.2 "DPTO") = true
                · rw [if_pos hc2]
                  by_cases hg2 : (i.departamento == "") = true
                  · rw [if_pos hg2]
                    refine extiende_set_departamento _ _ ?_
                    simp only [Bool.and_eq_true, beq_iff_eq] at hg2
                    first
                      | exact hg2.1
                      | exact hg2
                  · rw [if_neg hg2]
                    exact extiende_refl _
                · rw [if_neg hc2]
                  by_cases hc1 : (strContains x.2 "CARGO") = true
                  · rw [if_pos hc1]
                    by_cases hg1 : (i.cargo == "") = true
                    · rw [if_pos hg1]
                      refine extiende_set_cargo _ _ ?_
                      simp only [Bool.and_eq_true, beq_iff_eq] at hg1
                      first
                        | exact hg1.1
                        | exact hg1
                    · rw [if_neg hg1]
                      exact extiende_refl _
                  · rw [if_neg hc1]
                    exact extiende_refl _

theorem soupMapeaFila1_extiende (info : InformacionPersonal) (hs vs : List String) :
    Extiende info (soupMapeaFila1 info hs vs) := by
  unfold soupMapeaFila1
  exact extiende_foldl _ (soupFila1Paso_extiende vs) _ _

theorem soupFila3Paso_extiende (vs : List String) (i : InformacionPersonal)
    (x : Nat × String) : Extiende i (soupFila3Paso vs i x) := by
  unfold soupFila3Paso
  by_cases h0 : (if x.1 < vs.length then vs.getD x.1 "" else "") = ""
  · rw [if_pos h0]
    exact extiende_refl _
  · rw [if_neg h0]
    by_cases hc8 : (strContains x.2 "VINCULACION" || strContains x.2 "VINCULACIÓN") = true
    · rw [if_pos hc8]
      by_cases hg8 : (i.vinculacion == "") = true
      · rw [if_pos hg8]
        refine extiende_set_vinculacion _ _ ?_
        simp only [Bool.and_eq_true, beq_iff_eq] at hg8
        first
          | exact hg8.1
          | exact hg8
      · rw [if_neg hg8]
        exact extiende_refl _
    · rw [if_neg hc8]
      by_cases hc7 : (strContains x.2 "CATEGORIA" || strContains x.2 "CATEGORÍA") = true
      · rw [if_pos hc7]
        by_cases hg7 : (i.categoria == "") = true
        · rw [if_pos hg7]
          refine extiende_set_categoria _ _ ?_
          simp only [Bool.and_eq_true, beq_iff_eq] at hg7
          first
            | exact hg7.1
            | exact hg7
        · rw [if_neg hg7]
          exact extiende_refl _
      · rw [if_neg hc7]
        by_cases hc6 : (strContains x.2 "DEDICACION" || strContains x.2 "DEDICACIÓN") = true
        · rw [if_pos hc6]
          by_cases hg6 : (i.dedicacion == "") = true
          · rw [if_pos hg6]
            refine extiende_set_dedicacion _ _ ?_
            simp only [Bool.and_eq_true, beq_iff_eq] at hg6
            first
              | exact hg6.1
              | exact hg6
          · rw [if_neg hg6]
            exact extiende_refl _
        · rw [if_neg hc6]
          by_cases hc5 : (strContains x.2 "NIVEL" && strContains x.2 "ALCANZADO") = true
          · rw [if_pos hc5]
            by_cases hg5 : (i.nivel_alcanzado == "") = true
            · rw [if_pos hg5]
              refine extiende_set_nivel_alcanzado _ _ ?_
              simp only [Bool.and_eq_true, beq_iff_eq] at hg5
              first
                | exact hg5.1
                | exact hg5
            · rw [if_neg hg5]
              exact extiende_refl _
          · rw [if_neg hc5]
            by_cases hc4 : (strContains x.2 "CENTRO" && strContains x.2 "COSTO") = true
            · rw [if_pos hc4]
              by_cases hg4 : (i.centro_costo == "") = true
              · rw [if_pos hg4]
                refine extiende_set_centro_costo _ _ ?_
                simp only [Bool.and_eq_true, beq_iff_eq] at hg4
                first
                  | exact hg4.1
                  | exact hg4
              · rw [if_neg hg4]
                exact extiende_refl _
            · rw [if_neg hc4]
              by_cases hc3 : (strContains x.2 "CARGO") = true
              · rw [if_pos hc3]
                by_cases hg3 : (i.cargo == "") = true
                · rw [if_pos hg3]
                  refine extiende_set_cargo _ _ ?_
                  simp only [Bool.and_eq_true, beq_iff_eq] at hg3
                  first
                    | exact hg3.1
                    | exact hg3
                · rw [if_neg hg3]
                  exact extiende_refl _
              · rw [if_neg hc3]
                by_cases hc2 : (strContains x.2 "DEPARTAMENTO" || strContains x.2 "DPTO") = true
                · rw [if_pos hc2]
                  by_cases hg2 : (i.departamento == "") = true
                  · rw [if_pos hg2]
                    refine extiende_set_departamento _ _ ?_
                    simp only [Bool.and_eq_true, beq_iff_eq] at hg2
                    first
                      | exact hg2.1
                      | exact hg2
                  · rw [if_neg hg2]
                    exact extiende_refl _
                · rw [if_neg hc2]
                  by_cases hc1 : (strContains x.2 "ESCUELA") = true
                  · rw [if_pos hc1]
                    by_cases hg1 : (i.escuela == "") = true
                    · rw [if_pos hg1]
                      refine extiende_set_escuela _ _ ?_
                      simp only [Bool.and_eq_true, beq_iff_eq] at hg1
                      first
                        | exact hg1.1
                        | exact hg1
                    · rw [if_neg hg1]
                      exact extiende_refl _
                  · rw [if_neg hc1]
                    exact extiende_refl _

theorem soupMapeaFila3_extiende (info : InformacionPersonal) (hs vs : List String) :
    Extiende info (soupMapeaFila3 info hs vs) := by
  unfold soupMapeaFila3
  exact extiende_foldl _ (soupFila3Paso_extiende vs) _ _

theorem soupExtraPaso_extiende (celdas : List String) (i : InformacionPersonal)
    (x : Nat × String) : Extiende i (soupExtraPaso celdas i x) := by
  unfold soupExtraPaso
  by_cases h0 : celdas.getD (x.1 + 1) "" = ""
  · rw [if_pos h0]
    exact extiende_refl _
  · rw [if_neg h0]
    by_cases hc3 : (strContains (pyUpper x.2) "CARGO" && i.cargo == "") = true
    · rw [if_pos hc3]
      refine extiende_set_cargo _ _ ?_
      simp only [Bool.and_eq_true, beq_iff_eq] at hc3
      exact hc3.2
    · rw [if_neg hc3]
      by_cases hc2 : ((strContains (pyUpper x.2) "DEPARTAMENTO" || strContains (pyUpper x.2) "DPTO") && i.departamento == "") = true
      · rw [if_pos hc2]
        refine extiende_set_departamento _ _ ?_
        simp only [Bool.and_eq_true, beq_iff_eq] at hc2
        exact hc2.2
      · rw [if_neg hc2]
        by_cases hc1 : (strContains (pyUpper x.2) "ESCUELA" && i.escuela == "") = true
        · rw [if_pos hc1]
          refine extiende_set_escuela _ _ ?_
          simp only [Bool.and_eq_true, beq_iff_eq] at hc1
          exact hc1.2
        · rw [if_neg hc1]
          exact extiende_refl _

theorem soupEscaneaExtra_extiende (info : InformacionPersonal) (celdas : List String) :
    Extiende info (soupEscaneaExtra info celdas) := by
  unfold soupEscaneaExtra
  split
  · exact extiende_refl info
  · exact extiende_foldl _ (soupExtraPaso_extiende celdas) _ _

theorem soupTabla_extiende (info : InformacionPersonal) (t : Tabla) :
    Extiende info (soupTabla info t) := by
  unfold soupTabla
  dsimp only
  refine extiende_trans ?_ (extiende_foldl _ soupEscaneaExtra_extiende _ _)
  refine extiende_trans
    (soupMapeaFila1_extiende info ((t.filas.getD 0 []).map pyUpper) (t.filas.getD 1 [])) ?_
  split
  · exact soupMapeaFila3_extiende _ _ _
  · exact extiende_refl _

theorem soup_extiende (tablas : List Tabla) :
    ∀ info, Extiende info (extraer_datos_personales_con_soup tablas info) := by
  induction tablas with
  | nil => intro info; exact extiende_refl info
  | cons t resto ih =>
    intro info
    unfold extraer_datos_personales_con_soup
    split
    · exact ih info
    · dsimp only
      split
      · exact soupTabla_extiende info t
      · exact extiende_trans (soupTabla_extiende info t) (ih _)

theorem flatPasoVinculacion_extiende (hn : List Char) (info : InformacionPersonal) :
    Extiende info (flatPasoVinculacion hn info) := by
  unfold flatPasoVinculacion
  split
  · exact extiende_refl info
  · rename_i hne
    split
    · exact extiende_set_vinculacion _ _ (not_not.mp hne)
    · exact extiende_refl info

theorem flatPasoCategoria_extiende (hn : List Char) (info : InformacionPersonal) :
    Extiende info (flatPasoCategoria hn info) := by
  unfold flatPasoCategoria
  split
  · exact extiende_refl info
  · rename_i hne
    split
    · exact extiende_set_categoria _ _ (not_not.mp hne)
    · exact extiende_refl info

theorem flatPasoDedicacion_extiende (hn : List Char) (info : InformacionPersonal) :
    Extiende info (flatPasoDedicacion hn info) := by
  unfold flatPasoDedicacion
  split
  · exact extiende_refl info
  · rename_i hne
    split
    · exact extiende_set_dedicacion _ _ (not_not.mp hne)
    · exact extiende_refl info

theorem flatPasoNivel_extiende (hn : List Char) (info : InformacionPersonal) :
    Extiende info (flatPasoNivel hn info) := by
  unfold flatPasoNivel
  split
  · exact extiende_refl info
  · rename_i hne
    split
    · exact extiende_set_nivel_alcanzado _ _ (not_not.mp hne)
    · exact extiende_refl info

theorem flat_extiende (html : String) (info : InformacionPersonal) :
    Extiende info (extraer_info_personal_desde_texto_plano html info) := by
  unfold extraer_info_personal_desde_texto_plano
  exact extiende_trans (flatPasoVinculacion_extiende _ _)
    (extiende_trans (flatPasoCategoria_extiende _ _)
      (extiende_trans (flatPasoDedicacion_extiende _ _) (flatPasoNivel_extiende _ _)))

/-- C6 counterexample: after the first personal-info table the cedula holds
the non-empty value 111, but a second personal-info table later in the same
document overwrites it — the full two-pass pipeline ends with cedula 222,
so a non-empty PersonalInfo field was overwritten by a later table. -/
theorem c6_write_once_counterexample :
    ((List.foldl (pasoTabla 7) (none, { periodo := 7 })
        [tablaPersonal "111" "JUAN"]).2.informacion_personal).cedula = "111" ∧
    (extraer_info_personal_desde_texto_plano ""
        (extraer_datos_personales_con_soup
          [tablaPersonal "111" "JUAN", tablaPersonal "222" "PEDRO"]
          ((List.foldl (pasoTabla 7) (none, { periodo := 7 })
            [tablaPersonal "111" "JUAN", tablaPersonal "222" "PEDRO"]).2.informacion_personal))).cedula
      = "222" := by
  constructor <;> decide

/-- C6 amended: the BeautifulSoup pass and the flat-text regex pass are
write-once — every personal-info field that is already non-empty keeps its
value through either pass; the in-loop structural pass
(`_procesar_informacion_personal`), however, assigns its header-mapped fields
unconditionally, so a later personal-info table can overwrite earlier
non-empty values (see the counterexample). -/
theorem c6_write_once_amended (tablas : List Tabla) (html : String)
    (info : InformacionPersonal) :
    Extiende info (extraer_datos_personales_con_soup tablas info) ∧
    Extiende info (extraer_info_personal_desde_texto_plano html info) :=
  ⟨soup_extiende tablas info, flat_extiende html info⟩

theorem c6_write_once_amended_witness :
    (extraer_datos_personales_con_soup [tablaPersonal "111" "JUAN"] infoLlena).cedula = "C1" ∧
    (extraer_info_personal_desde_texto_plano "VINCULACION=X" infoLlena).vinculacion = "V1" :=
  ⟨(c6_write_once_amended [tablaPersonal "111" "JUAN"] "VINCULACION=X" infoLlena).1.1
      (by decide),
   (c6_write_once_amended [tablaPersonal "111" "JUAN"] "VINCULACION=X"
      infoLlena).2.2.2.2.2.2.2.2.1 (by decide)⟩
